import Mathlib

/-! Verification development for the Hothouse effect-pedal DSP core.

The C++ sources (hothouse.h and the eight pedal implementations) are
shallowly embedded over the rationals: every float is modelled as a
rational number, fixed-size float arrays are modelled as functions from
array indices to rationals together with the modular cursor discipline of
the source, and the C float-to-int cast is modelled as truncation toward
zero.  The transcendental C library primitives (sinf, log10f, powf) carry
no algorithm of their own in the source, so the embedded effects that
call them take an abstract interpretation of those primitives as a
parameter; a separate real-valued model is used where a claim is about
the actual base-10 logarithm. -/

namespace Hothouse

/-- Utility from hothouse.h: constrain a value into a closed interval. -/
def constrain (value min max : ℚ) : ℚ :=
  if value < min then min
  else if value > max then max
  else value

/-- The C float-to-int cast used by the pedals: truncation toward zero. -/
def truncZ (q : ℚ) : ℤ := if q < 0 then ⌈q⌉ else ⌊q⌋

/-- The M_PI float constant used by chorus.cpp and tremolo.cpp. -/
def M_PI : ℚ := 3.14159265358979323846

/-- Abstract interpretation of the C math-library primitives used by the
pedals.  The embedded effects are parametric over these functions, so the
theorems below hold for every interpretation of them. -/
structure FloatOps where
  sinf : ℚ → ℚ
  log10f : ℚ → ℚ
  powf : ℚ → ℚ → ℚ

/-- Toggle switch position enum from hothouse.h. -/
inductive ToggleswitchPosition where
  | UP
  | MIDDLE
  | DOWN
  | UNKNOWN
  deriving DecidableEq, Repr

/-- Hardware control snapshot (struct HothouseControls): 6 knobs, 3
toggles, 2 footswitch rising edges and 2 footswitch held states. -/
structure HothouseControls where
  knobs : Fin 6 → ℚ
  toggles : Fin 3 → ToggleswitchPosition
  footswitchRisingEdge : Fin 2 → Bool
  footswitchPressed : Fin 2 → Bool

/-- The HothouseControls default constructor: mid-scale knobs, MIDDLE
toggles, no edges, nothing pressed. -/
def HothouseControls.init : HothouseControls where
  knobs := fun _ => 0.5
  toggles := fun _ => ToggleswitchPosition.MIDDLE
  footswitchRisingEdge := fun _ => false
  footswitchPressed := fun _ => false

/-- One-pole parameter smoother state (class ParameterSmoother). -/
structure ParameterSmoother where
  currentValue : ℚ
  targetValue : ℚ
  coefficient : ℚ

namespace ParameterSmoother

/-- ParameterSmoother::setSmoothing: derive the decay coefficient from a
smoothing time in milliseconds and the sample rate, flooring the sample
count at 1. -/
def setSmoothing (s : ParameterSmoother) (smoothingMs sampleRate : ℚ) : ParameterSmoother :=
  let samples := smoothingMs / 1000 * sampleRate
  let samples := if samples < 1 then 1 else samples
  { s with coefficient := 1 - 1 / samples }

/-- The ParameterSmoother constructor. -/
def init (smoothingMs sampleRate initialValue : ℚ) : ParameterSmoother :=
  setSmoothing
    { currentValue := initialValue, targetValue := initialValue, coefficient := 0 }
    smoothingMs sampleRate

/-- ParameterSmoother::setTarget. -/
def setTarget (s : ParameterSmoother) (value : ℚ) : ParameterSmoother :=
  { s with targetValue := value }

/-- ParameterSmoother::setImmediate. -/
def setImmediate (s : ParameterSmoother) (value : ℚ) : ParameterSmoother :=
  { s with currentValue := value, targetValue := value }

/-- ParameterSmoother::process: advance the current value one step toward
the target and return it. -/
def process (s : ParameterSmoother) : ℚ × ParameterSmoother :=
  let c := s.currentValue * s.coefficient + s.targetValue * (1 - s.coefficient)
  (c, { s with currentValue := c })

/-- ParameterSmoother::getValue. -/
def getValue (s : ParameterSmoother) : ℚ := s.currentValue

/-- n consecutive calls to ParameterSmoother::process. -/
def iterate (s : ParameterSmoother) : ℕ → ParameterSmoother
  | 0 => s
  | n + 1 => (s.process).2.iterate n

end ParameterSmoother

/-- The capability set every effect implements (class HothouseEffect),
packaged as explicit state-passing functions over an effect state type. -/
structure EffectImpl (σ : Type) where
  process : σ → ℚ → ℚ × σ
  updateFromControls : σ → HothouseControls → σ
  getLedState : σ → ℚ

/-- Pedal controller state (class HothousePedal): a nullable active
effect, the last control snapshot, LED brightness values and the bypass
flag. -/
structure HothousePedal (σ : Type) where
  currentEffect : Option σ
  controls : HothouseControls
  leds : Fin 2 → ℚ
  bypassed : Bool

/-- HothousePedal::updateControls: store the snapshot, toggle bypass on a
footswitch-1 rising edge, forward the snapshot to the active effect, and
recompute LED 1 (HothouseLeds::set constrains brightness into [0,1]). -/
def HothousePedal.updateControls {σ : Type} (E : EffectImpl σ)
    (p : HothousePedal σ) (newControls : HothouseControls) : HothousePedal σ :=
  let controls := newControls
  let bypassed := if controls.footswitchRisingEdge 0 then !p.bypassed else p.bypassed
  let currentEffect := Option.map (fun e => E.updateFromControls e controls) p.currentEffect
  let led1 : ℚ :=
    if bypassed then constrain 0 0 1
    else
      match currentEffect with
      | some e => constrain (E.getLedState e) 0 1
      | none => constrain 0 0 1
  { currentEffect := currentEffect
    controls := controls
    leds := Function.update p.leds 0 led1
    bypassed := bypassed }

/-- HothousePedal::process: pass the sample through unchanged when
bypassed or when no effect is installed, otherwise delegate to the active
effect. -/
def HothousePedal.process {σ : Type} (E : EffectImpl σ)
    (p : HothousePedal σ) (inputSample : ℚ) : ℚ × HothousePedal σ :=
  if p.bypassed || p.currentEffect.isNone then (inputSample, p)
  else
    match p.currentEffect with
    | none => (inputSample, p)
    | some e =>
      let r := E.process e inputSample
      (r.1, { p with currentEffect := some r.2 })

/-- HothousePedal::processBuffer applies process sample-by-sample in
order; this is the same fold used below to run an effect on an input
list. -/
def runEffect {σ : Type} (step : σ → ℚ → ℚ × σ) : σ → List ℚ → List ℚ
  | _, [] => []
  | s, x :: xs => (step s x).1 :: runEffect step (step s x).2 xs

/-- Base comb filter delay lengths from reverb.cpp (samples at 48 kHz). -/
def baseCombDelays : List ℕ := [1557, 1617, 1491, 1422]

/-- Base allpass filter delay lengths from reverb.cpp. -/
def baseAllpassDelays : List ℕ := [225, 556]

/-- MAX_PREDELAY from reverb.cpp: 100 ms at 48 kHz. -/
def MAX_PREDELAY : ℕ := 4800

/-- Comb filter state (class CombFilter in reverb.cpp): circular buffer,
cursor, feedback gain, damping coefficient and damping accumulator. -/
structure CombFilter where
  buffer : ℕ → ℚ
  bufferSize : ℕ
  index : ℕ
  feedback : ℚ
  damping : ℚ
  dampState : ℚ

namespace CombFilter

/-- The CombFilter constructor: zeroed buffer of the given size, cursor
at 0, feedback 0.7, damping 0.5. -/
def init (size : ℕ) : CombFilter where
  buffer := fun _ => 0
  bufferSize := size
  index := 0
  feedback := 0.7
  damping := 0.5
  dampState := 0

/-- CombFilter::setFeedback. -/
def setFeedback (c : CombFilter) (fb : ℚ) : CombFilter := { c with feedback := fb }

/-- CombFilter::setDamping. -/
def setDamping (c : CombFilter) (d : ℚ) : CombFilter := { c with damping := d }

/-- CombFilter::process: read the delayed sample, low-pass it into the
damping accumulator, write input plus damped feedback back at the cursor
and advance the cursor modulo the buffer length. -/
def process (c : CombFilter) (input : ℚ) : ℚ × CombFilter :=
  let output := c.buffer c.index
  let dampState := output * (1 - c.damping) + c.dampState * c.damping
  let buffer := Function.update c.buffer c.index (input + dampState * c.feedback)
  (output,
    { c with buffer := buffer, dampState := dampState, index := (c.index + 1) % c.bufferSize })

/-- CombFilter::clear. -/
def clear (c : CombFilter) : CombFilter :=
  { c with buffer := fun _ => 0, index := 0, dampState := 0 }

/-- A comb filter holding only silence. -/
def Silent (c : CombFilter) : Prop := (∀ i, c.buffer i = 0) ∧ c.dampState = 0

end CombFilter

/-- Allpass filter state (class AllpassFilter in reverb.cpp). -/
structure AllpassFilter where
  buffer : ℕ → ℚ
  bufferSize : ℕ
  index : ℕ
  gain : ℚ

namespace AllpassFilter

/-- The AllpassFilter constructor: zeroed buffer, cursor 0, gain 0.5. -/
def init (size : ℕ) : AllpassFilter where
  buffer := fun _ => 0
  bufferSize := size
  index := 0
  gain := 0.5

/-- AllpassFilter::process: output is the negated input plus the buffered
sample; input plus the scaled buffered sample is written back and the
cursor advances modulo the buffer length. -/
def process (a : AllpassFilter) (input : ℚ) : ℚ × AllpassFilter :=
  let bufOut := a.buffer a.index
  let output := -input + bufOut
  (output,
    { a with buffer := Function.update a.buffer a.index (input + bufOut * a.gain),
             index := (a.index + 1) % a.bufferSize })

/-- AllpassFilter::clear. -/
def clear (a : AllpassFilter) : AllpassFilter :=
  { a with buffer := fun _ => 0, index := 0 }

/-- An allpass filter holding only silence. -/
def Silent (a : AllpassFilter) : Prop := ∀ i, a.buffer i = 0

end AllpassFilter

/-- Reverb effect state (class Reverb in reverb.cpp): four comb filters,
two allpass filters, a pre-delay line, five parameter smoothers and the
room-type mode. -/
structure Reverb where
  comb0 : CombFilter
  comb1 : CombFilter
  comb2 : CombFilter
  comb3 : CombFilter
  allpass0 : AllpassFilter
  allpass1 : AllpassFilter
  predelayBuffer : ℕ → ℚ
  predelayWriteIndex : ℕ
  smoothSize : ParameterSmoother
  smoothDamping : ParameterSmoother
  smoothPredelay : ParameterSmoother
  smoothLevel : ParameterSmoother
  smoothMix : ParameterSmoother
  roomType : ℤ
  sizeMultiplier : ℚ

namespace Reverb

/-- The Reverb constructor. -/
def init (sampleRate : ℚ) : Reverb where
  comb0 := CombFilter.init 1557
  comb1 := CombFilter.init 1617
  comb2 := CombFilter.init 1491
  comb3 := CombFilter.init 1422
  allpass0 := AllpassFilter.init 225
  allpass1 := AllpassFilter.init 556
  predelayBuffer := fun _ => 0
  predelayWriteIndex := 0
  smoothSize := ParameterSmoother.init 20 sampleRate 0.5
  smoothDamping := ParameterSmoother.init 20 sampleRate 0.5
  smoothPredelay := ParameterSmoother.init 20 sampleRate 0
  smoothLevel := ParameterSmoother.init 20 sampleRate 1
  smoothMix := ParameterSmoother.init 20 sampleRate 0.3
  roomType := 1
  sizeMultiplier := 1

/-- Reverb::updateFromControls: knobs 1/2/3/4/6 set the smoother targets;
toggle 1 selects the room type, leaving it unchanged in any other
position. -/
def updateFromControls (r : Reverb) (controls : HothouseControls) : Reverb :=
  let r := { r with
    smoothSize := r.smoothSize.setTarget (controls.knobs 0)
    smoothDamping := r.smoothDamping.setTarget (controls.knobs 1)
    smoothPredelay := r.smoothPredelay.setTarget (controls.knobs 2)
    smoothLevel := r.smoothLevel.setTarget (controls.knobs 3)
    smoothMix := r.smoothMix.setTarget (controls.knobs 5) }
  match controls.toggles 0 with
  | ToggleswitchPosition.UP => { r with roomType := 0, sizeMultiplier := 0.5 }
  | ToggleswitchPosition.MIDDLE => { r with roomType := 1, sizeMultiplier := 1 }
  | ToggleswitchPosition.DOWN => { r with roomType := 2, sizeMultiplier := 1.5 }
  | ToggleswitchPosition.UNKNOWN => r

/-- Reverb::process: smooth the parameters, derive the comb feedback from
size and room multiplier with a 0.95 ceiling, run the pre-delay line, the
four parallel combs and the two series allpasses, then dry/wet mix. -/
def process (r : Reverb) (inputSample : ℚ) : ℚ × Reverb :=
  let sizeR := r.smoothSize.process
  let dampingR := r.smoothDamping.process
  let predelayR := r.smoothPredelay.process
  let levelR := r.smoothLevel.process
  let mixR := r.smoothMix.process
  let size := sizeR.1
  let damping := dampingR.1
  let predelay := predelayR.1
  let level := levelR.1
  let mix := mixR.1
  let feedback := 0.5 + size * r.sizeMultiplier * 0.35
  let feedback := if feedback > 0.95 then 0.95 else feedback
  let comb0 := (r.comb0.setFeedback feedback).setDamping damping
  let comb1 := (r.comb1.setFeedback feedback).setDamping damping
  let comb2 := (r.comb2.setFeedback feedback).setDamping damping
  let comb3 := (r.comb3.setFeedback feedback).setDamping damping
  let predelaySamples := truncZ (predelay * (MAX_PREDELAY : ℚ))
  let predelaySamples := if predelaySamples < 1 then 1 else predelaySamples
  let predelaySamples :=
    if predelaySamples ≥ (MAX_PREDELAY : ℤ) then (MAX_PREDELAY : ℤ) - 1 else predelaySamples
  let predelayBuffer := Function.update r.predelayBuffer r.predelayWriteIndex inputSample
  let predelayReadIndex := (r.predelayWriteIndex : ℤ) - predelaySamples
  let predelayReadIndex :=
    if predelayReadIndex < 0 then predelayReadIndex + (MAX_PREDELAY : ℤ) else predelayReadIndex
  let predelayedSample := predelayBuffer predelayReadIndex.toNat
  let predelayWriteIndex :=
    if r.predelayWriteIndex + 1 ≥ MAX_PREDELAY then 0 else r.predelayWriteIndex + 1
  let p0 := comb0.process predelayedSample
  let p1 := comb1.process predelayedSample
  let p2 := comb2.process predelayedSample
  let p3 := comb3.process predelayedSample
  let combOut := (p0.1 + p1.1 + p2.1 + p3.1) / 4
  let a0 := r.allpass0.process combOut
  let a1 := r.allpass1.process a0.1
  let wetSignal := a1.1 * level
  (inputSample * (1 - mix) + wetSignal * mix,
    { comb0 := p0.2, comb1 := p1.2, comb2 := p2.2, comb3 := p3.2
      allpass0 := a0.2, allpass1 := a1.2
      predelayBuffer := predelayBuffer, predelayWriteIndex := predelayWriteIndex
      smoothSize := sizeR.2, smoothDamping := dampingR.2, smoothPredelay := predelayR.2
      smoothLevel := levelR.2, smoothMix := mixR.2
      roomType := r.roomType, sizeMultiplier := r.sizeMultiplier })

/-- Reverb::reset: clear the filters and the pre-delay line. -/
def reset (r : Reverb) : Reverb :=
  { r with
    comb0 := r.comb0.clear, comb1 := r.comb1.clear
    comb2 := r.comb2.clear, comb3 := r.comb3.clear
    allpass0 := r.allpass0.clear, allpass1 := r.allpass1.clear
    predelayBuffer := fun _ => 0
    predelayWriteIndex := 0 }

/-- A reverb whose filter network and pre-delay line hold only silence. -/
def Silent (r : Reverb) : Prop :=
  r.comb0.Silent ∧ r.comb1.Silent ∧ r.comb2.Silent ∧ r.comb3.Silent ∧
  r.allpass0.Silent ∧ r.allpass1.Silent ∧ ∀ i, r.predelayBuffer i = 0

end Reverb

/-- MAX_DELAY_SAMPLES from delay.cpp: 1 second at 48 kHz. -/
def MAX_DELAY_SAMPLES : ℕ := 48000

/-- Delay effect state (class Delay in delay.cpp). -/
structure Delay where
  delayBuffer : ℕ → ℚ
  writeIndex : ℕ
  sampleRate : ℤ
  smoothTime : ParameterSmoother
  smoothFeedback : ParameterSmoother
  smoothFilter : ParameterSmoother
  smoothLevel : ParameterSmoother
  smoothMix : ParameterSmoother
  filterState : ℚ
  timeMultiplier : ℚ

namespace Delay

/-- The Delay constructor. -/
def init (sr : ℤ) : Delay where
  delayBuffer := fun _ => 0
  writeIndex := 0
  sampleRate := sr
  smoothTime := ParameterSmoother.init 20 (sr : ℚ) 0.5
  smoothFeedback := ParameterSmoother.init 20 (sr : ℚ) 0.5
  smoothFilter := ParameterSmoother.init 20 (sr : ℚ) 0.7
  smoothLevel := ParameterSmoother.init 20 (sr : ℚ) 1
  smoothMix := ParameterSmoother.init 20 (sr : ℚ) 0.5
  filterState := 0
  timeMultiplier := 1

/-- Delay::updateFromControls: toggle 1 picks the time-range multiplier
(unchanged in any other position); the knobs set the smoother targets,
with knob 1 scaled by the multiplier and knob 2 scaled to [0, 0.9]. -/
def updateFromControls (d : Delay) (controls : HothouseControls) : Delay :=
  let timeMultiplier :=
    match controls.toggles 0 with
    | ToggleswitchPosition.UP => (0.25 : ℚ)
    | ToggleswitchPosition.MIDDLE => 0.5
    | ToggleswitchPosition.DOWN => 1
    | ToggleswitchPosition.UNKNOWN => d.timeMultiplier
  let time := controls.knobs 0 * timeMultiplier
  { d with
    timeMultiplier := timeMultiplier
    smoothTime := d.smoothTime.setTarget time
    smoothFeedback := d.smoothFeedback.setTarget (controls.knobs 1 * 0.9)
    smoothFilter := d.smoothFilter.setTarget (controls.knobs 2)
    smoothLevel := d.smoothLevel.setTarget (controls.knobs 3)
    smoothMix := d.smoothMix.setTarget (controls.knobs 5) }

/-- Delay::process: read the delayed sample, low-pass it for the feedback
path, write the clamped sum of input and filtered feedback, advance the
cursor, and dry/wet mix the delayed sample scaled by level. -/
def process (d : Delay) (inputSample : ℚ) : ℚ × Delay :=
  let timeR := d.smoothTime.process
  let feedbackR := d.smoothFeedback.process
  let filterR := d.smoothFilter.process
  let levelR := d.smoothLevel.process
  let mixR := d.smoothMix.process
  let time := timeR.1
  let feedback := feedbackR.1
  let filter := filterR.1
  let level := levelR.1
  let mix := mixR.1
  let delaySamples := truncZ ((0.05 + time * 0.95) * (d.sampleRate : ℚ))
  let delaySamples := if delaySamples < 1 then 1 else delaySamples
  let delaySamples :=
    if delaySamples ≥ (MAX_DELAY_SAMPLES : ℤ) then (MAX_DELAY_SAMPLES : ℤ) - 1 else delaySamples
  let readIndex := (d.writeIndex : ℤ) - delaySamples
  let readIndex := if readIndex < 0 then readIndex + (MAX_DELAY_SAMPLES : ℤ) else readIndex
  let delayedSample := d.delayBuffer readIndex.toNat
  let filterCoeff := 0.1 + filter * 0.89
  let filterState := d.filterState * (1 - filterCoeff) + delayedSample * filterCoeff
  let filteredFeedback := filterState
  let written := inputSample + filteredFeedback * feedback
  let written := if written > 1 then 1 else written
  let written := if written < -1 then -1 else written
  let delayBuffer := Function.update d.delayBuffer d.writeIndex written
  let writeIndex := if d.writeIndex + 1 ≥ MAX_DELAY_SAMPLES then 0 else d.writeIndex + 1
  let wetSignal := delayedSample * level
  (inputSample * (1 - mix) + wetSignal * mix,
    { d with
      delayBuffer := delayBuffer, writeIndex := writeIndex, filterState := filterState
      smoothTime := timeR.2, smoothFeedback := feedbackR.2, smoothFilter := filterR.2
      smoothLevel := levelR.2, smoothMix := mixR.2 })

/-- Delay::reset. -/
def reset (d : Delay) : Delay :=
  { d with delayBuffer := fun _ => 0, writeIndex := 0, filterState := 0 }

/-- A delay whose line and feedback filter hold only silence. -/
def Silent (d : Delay) : Prop := (∀ i, d.delayBuffer i = 0) ∧ d.filterState = 0

end Delay

/-- MAX_CHORUS_DELAY from chorus.cpp: 100 ms at 48 kHz. -/
def MAX_CHORUS_DELAY : ℕ := 4800

/-- Chorus effect state (class Chorus in chorus.cpp). -/
structure Chorus where
  delayBuffer : ℕ → ℚ
  writeIndex : ℕ
  lfoPhase : ℚ
  sampleRate : ℚ
  smoothRate : ParameterSmoother
  smoothDepth : ParameterSmoother
  smoothMix : ParameterSmoother
  waveform : ℤ

namespace Chorus

/-- The Chorus constructor. -/
def init (sr : ℚ) : Chorus where
  delayBuffer := fun _ => 0
  writeIndex := 0
  lfoPhase := 0
  sampleRate := sr
  smoothRate := ParameterSmoother.init 20 sr 1
  smoothDepth := ParameterSmoother.init 20 sr 0.5
  smoothMix := ParameterSmoother.init 20 sr 0.5
  waveform := 0

/-- Chorus::getLFO: triangle for waveform 1, square for waveform 2, sine
otherwise. -/
def getLFO (ops : FloatOps) (waveform : ℤ) (lfoPhase : ℚ) : ℚ :=
  if waveform = 1 then 2 * |2 * (lfoPhase - (⌊lfoPhase + 0.5⌋ : ℤ))| - 1
  else if waveform = 2 then (if lfoPhase < 0.5 then 1 else -1)
  else ops.sinf (2 * M_PI * lfoPhase)

/-- Chorus::updateFromControls: knob 1 maps to a 0.1-5 Hz rate, knob 2 to
depth, knob 6 to mix; toggle 1 selects the waveform (unchanged in any
other position). -/
def updateFromControls (c : Chorus) (controls : HothouseControls) : Chorus :=
  let rate := 0.1 + controls.knobs 0 * 4.9
  let waveform :=
    match controls.toggles 0 with
    | ToggleswitchPosition.UP => (0 : ℤ)
    | ToggleswitchPosition.MIDDLE => 1
    | ToggleswitchPosition.DOWN => 2
    | ToggleswitchPosition.UNKNOWN => c.waveform
  { c with
    smoothRate := c.smoothRate.setTarget rate
    smoothDepth := c.smoothDepth.setTarget (controls.knobs 1)
    smoothMix := c.smoothMix.setTarget (controls.knobs 5)
    waveform := waveform }

/-- Chorus::process: advance the LFO phase, derive the modulated delay
length clamped into buffer bounds, read the delayed sample, write the
input, and dry/wet mix. -/
def process (ops : FloatOps) (c : Chorus) (inputSample : ℚ) : ℚ × Chorus :=
  let rateR := c.smoothRate.process
  let depthR := c.smoothDepth.process
  let mixR := c.smoothMix.process
  let rate := rateR.1
  let depth := depthR.1
  let mix := mixR.1
  let lfoPhase := c.lfoPhase + rate / c.sampleRate
  let lfoPhase := if lfoPhase ≥ 1 then lfoPhase - 1 else lfoPhase
  let lfoValue := getLFO ops c.waveform lfoPhase
  let delayTime := 10 + depth * 15
  let modulatedDelay := delayTime + lfoValue * depth * 5
  let delaySamples := truncZ (modulatedDelay * c.sampleRate / 1000)
  let delaySamples :=
    if delaySamples ≥ (MAX_CHORUS_DELAY : ℤ) then (MAX_CHORUS_DELAY : ℤ) - 1 else delaySamples
  let delaySamples := if delaySamples < 1 then 1 else delaySamples
  let readIndex := (c.writeIndex : ℤ) - delaySamples
  let readIndex := if readIndex < 0 then readIndex + (MAX_CHORUS_DELAY : ℤ) else readIndex
  let delayedSample := c.delayBuffer readIndex.toNat
  let delayBuffer := Function.update c.delayBuffer c.writeIndex inputSample
  let writeIndex := if c.writeIndex + 1 ≥ MAX_CHORUS_DELAY then 0 else c.writeIndex + 1
  (inputSample * (1 - mix) + delayedSample * mix,
    { c with
      delayBuffer := delayBuffer, writeIndex := writeIndex, lfoPhase := lfoPhase
      smoothRate := rateR.2, smoothDepth := depthR.2, smoothMix := mixR.2 })

/-- Chorus::reset. -/
def reset (c : Chorus) : Chorus :=
  { c with delayBuffer := fun _ => 0, writeIndex := 0, lfoPhase := 0 }

/-- A chorus whose delay line holds only silence. -/
def Silent (c : Chorus) : Prop := ∀ i, c.delayBuffer i = 0

end Chorus

/-- Overdrive effect state (class Overdrive in overdrive.cpp). -/
structure Overdrive where
  smoothDrive : ParameterSmoother
  smoothTone : ParameterSmoother
  smoothBass : ParameterSmoother
  smoothLevel : ParameterSmoother
  smoothMix : ParameterSmoother
  previousSample : ℚ
  bassState : ℚ
  voicing : ℤ

namespace Overdrive

/-- The Overdrive constructor. -/
def init (sampleRate : ℚ) : Overdrive where
  smoothDrive := ParameterSmoother.init 20 sampleRate 0.5
  smoothTone := ParameterSmoother.init 20 sampleRate 0.7
  smoothBass := ParameterSmoother.init 20 sampleRate 0.5
  smoothLevel := ParameterSmoother.init 20 sampleRate 0.8
  smoothMix := ParameterSmoother.init 20 sampleRate 1
  previousSample := 0
  bassState := 0
  voicing := 1

/-- Overdrive::softClip: drive-scaled rational tanh approximation,
saturating at 0.76159 past unit input. -/
def softClip (sample drive : ℚ) : ℚ :=
  let x := sample * (1 + drive * 9)
  if x > 1 then 0.76159
  else if x < -1 then -0.76159
  else
    let x2 := x * x
    x * (27 + x2) / (27 + 9 * x2)

/-- Overdrive::updateFromControls. -/
def updateFromControls (o : Overdrive) (controls : HothouseControls) : Overdrive :=
  let voicing :=
    match controls.toggles 0 with
    | ToggleswitchPosition.UP => (0 : ℤ)
    | ToggleswitchPosition.MIDDLE => 1
    | ToggleswitchPosition.DOWN => 2
    | ToggleswitchPosition.UNKNOWN => o.voicing
  { o with
    smoothDrive := o.smoothDrive.setTarget (controls.knobs 0)
    smoothTone := o.smoothTone.setTarget (controls.knobs 1)
    smoothBass := o.smoothBass.setTarget (controls.knobs 2)
    smoothLevel := o.smoothLevel.setTarget (controls.knobs 3)
    smoothMix := o.smoothMix.setTarget (controls.knobs 5)
    voicing := voicing }

/-- Overdrive::process: bass shelf, soft clip, voicing-adjusted tone
low-pass, dry/wet mix and output level. -/
def process (o : Overdrive) (inputSample : ℚ) : ℚ × Overdrive :=
  let driveR := o.smoothDrive.process
  let toneR := o.smoothTone.process
  let bassR := o.smoothBass.process
  let levelR := o.smoothLevel.process
  let mixR := o.smoothMix.process
  let drive := driveR.1
  let tone := toneR.1
  let bass := bassR.1
  let level := levelR.1
  let mix := mixR.1
  let bassCoeff := (0.05 : ℚ)
  let bassState := o.bassState * (1 - bassCoeff) + inputSample * bassCoeff
  let bassBoost := (bass - 0.5) * 2
  let sample := inputSample + bassState * bassBoost
  let driven := softClip sample drive
  let toneBase : ℚ := if o.voicing = 0 then 0.3 else if o.voicing = 2 then 0.7 else 0.5
  let toneAlpha := toneBase + tone * (1 - toneBase) * 0.98
  let filtered := toneAlpha * driven + (1 - toneAlpha) * o.previousSample
  let previousSample := filtered
  let toned := filtered
  let output := inputSample * (1 - mix) + toned * mix
  (output * level,
    { o with
      previousSample := previousSample, bassState := bassState
      smoothDrive := driveR.2, smoothTone := toneR.2, smoothBass := bassR.2
      smoothLevel := levelR.2, smoothMix := mixR.2 })

/-- Overdrive::reset. -/
def reset (o : Overdrive) : Overdrive :=
  { o with previousSample := 0, bassState := 0 }

/-- An overdrive whose filter states hold only silence. -/
def Silent (o : Overdrive) : Prop := o.previousSample = 0 ∧ o.bassState = 0

end Overdrive

/-- Distortion effect state (class Distortion in distortion.cpp). -/
structure Distortion where
  smoothGain : ParameterSmoother
  smoothTone : ParameterSmoother
  smoothBass : ParameterSmoother
  smoothLevel : ParameterSmoother
  smoothMix : ParameterSmoother
  previousSample : ℚ
  dcBlocker : ℚ
  bassState : ℚ
  clipMode : ℤ

namespace Distortion

/-- MAX_DISTORTION_GAIN from distortion.cpp. -/
def MAX_DISTORTION_GAIN : ℚ := 100

/-- The Distortion constructor. -/
def init (sampleRate : ℚ) : Distortion where
  smoothGain := ParameterSmoother.init 20 sampleRate 0.5
  smoothTone := ParameterSmoother.init 20 sampleRate 0.6
  smoothBass := ParameterSmoother.init 20 sampleRate 0.5
  smoothLevel := ParameterSmoother.init 20 sampleRate 0.7
  smoothMix := ParameterSmoother.init 20 sampleRate 1
  previousSample := 0
  dcBlocker := 0
  bassState := 0
  clipMode := 0

/-- Distortion::hardClip. -/
def hardClip (sample threshold : ℚ) : ℚ :=
  if sample > threshold then threshold
  else if sample < -threshold then -threshold
  else sample

/-- Distortion::softClip. -/
def softClip (sample : ℚ) : ℚ :=
  if sample > 1 then 0.76159
  else if sample < -1 then -0.76159
  else
    let x2 := sample * sample
    sample * (27 + x2) / (27 + 9 * x2)

/-- Distortion::updateFromControls. -/
def updateFromControls (d : Distortion) (controls : HothouseControls) : Distortion :=
  let clipMode :=
    match controls.toggles 0 with
    | ToggleswitchPosition.UP => (0 : ℤ)
    | ToggleswitchPosition.MIDDLE => 1
    | ToggleswitchPosition.DOWN => 2
    | ToggleswitchPosition.UNKNOWN => d.clipMode
  { d with
    smoothGain := d.smoothGain.setTarget (controls.knobs 0)
    smoothTone := d.smoothTone.setTarget (controls.knobs 1)
    smoothBass := d.smoothBass.setTarget (controls.knobs 2)
    smoothLevel := d.smoothLevel.setTarget (controls.knobs 3)
    smoothMix := d.smoothMix.setTarget (controls.knobs 5)
    clipMode := clipMode }

/-- Distortion::process: DC block, bass shelf, gain, mode-selected
clipping, tone low-pass, dry/wet mix and output level. -/
def process (d : Distortion) (inputSample : ℚ) : ℚ × Distortion :=
  let gainR := d.smoothGain.process
  let toneR := d.smoothTone.process
  let bassR := d.smoothBass.process
  let levelR := d.smoothLevel.process
  let mixR := d.smoothMix.process
  let gain := gainR.1
  let tone := toneR.1
  let bass := bassR.1
  let level := levelR.1
  let mix := mixR.1
  let sample := inputSample - d.dcBlocker
  let dcBlocker := inputSample * 0.995
  let bassCoeff := (0.05 : ℚ)
  let bassState := d.bassState * (1 - bassCoeff) + sample * bassCoeff
  let bassBoost := (bass - 0.5) * 2
  let sample := sample + bassState * bassBoost
  let amplified := sample * (1 + gain * (MAX_DISTORTION_GAIN - 1))
  let clipped :=
    if d.clipMode = 0 then hardClip amplified 0.7
    else if d.clipMode = 1 then softClip (hardClip amplified 0.85 * 0.8)
    else softClip (amplified * 0.5)
  let toneAlpha := 0.3 + tone * 0.69
  let filtered := toneAlpha * clipped + (1 - toneAlpha) * d.previousSample
  let previousSample := filtered
  let toned := filtered
  let output := inputSample * (1 - mix) + toned * mix
  (output * level,
    { d with
      previousSample := previousSample, dcBlocker := dcBlocker, bassState := bassState
      smoothGain := gainR.2, smoothTone := toneR.2, smoothBass := bassR.2
      smoothLevel := levelR.2, smoothMix := mixR.2 })

/-- Distortion::reset. -/
def reset (d : Distortion) : Distortion :=
  { d with previousSample := 0, dcBlocker := 0, bassState := 0 }

/-- A distortion whose filter states hold only silence. -/
def Silent (d : Distortion) : Prop :=
  d.previousSample = 0 ∧ d.dcBlocker = 0 ∧ d.bassState = 0

end Distortion

/-- Fuzz effect state (class Fuzz in fuzz.cpp). -/
structure Fuzz where
  smoothFuzz : ParameterSmoother
  smoothTone : ParameterSmoother
  smoothGate : ParameterSmoother
  smoothLevel : ParameterSmoother
  smoothMix : ParameterSmoother
  previousSample : ℚ
  dcBlocker : ℚ
  character : ℤ

namespace Fuzz

/-- MAX_FUZZ_GAIN from fuzz.cpp. -/
def MAX_FUZZ_GAIN : ℚ := 200

/-- The Fuzz constructor. -/
def init (sampleRate : ℚ) : Fuzz where
  smoothFuzz := ParameterSmoother.init 20 sampleRate 0.7
  smoothTone := ParameterSmoother.init 20 sampleRate 0.5
  smoothGate := ParameterSmoother.init 20 sampleRate 0
  smoothLevel := ParameterSmoother.init 20 sampleRate 0.7
  smoothMix := ParameterSmoother.init 20 sampleRate 1
  previousSample := 0
  dcBlocker := 0
  character := 0

/-- Fuzz::vintageClip: asymmetric piecewise clipping. -/
def vintageClip (sample : ℚ) : ℚ :=
  if sample > 0.5 then 0.5 + (sample - 0.5) * 0.1
  else if sample < -0.6 then -0.6 + (sample + 0.6) * 0.15
  else sample

/-- Fuzz::modernClip: symmetric hard clip at 0.4. -/
def modernClip (sample : ℚ) : ℚ :=
  if sample > 0.4 then 0.4
  else if sample < -0.4 then -0.4
  else sample

/-- Fuzz::octaveClip: clipped full-wave rectification blended with the
dry sample. -/
def octaveClip (sample : ℚ) : ℚ :=
  let rectified := |sample|
  let rectified := if rectified > 0.5 then 0.5 else rectified
  rectified * (if sample > 0 then 1 else -1) * 0.5 + sample * 0.5

/-- Fuzz::updateFromControls. -/
def updateFromControls (f : Fuzz) (controls : HothouseControls) : Fuzz :=
  let character :=
    match controls.toggles 0 with
    | ToggleswitchPosition.UP => (0 : ℤ)
    | ToggleswitchPosition.MIDDLE => 1
    | ToggleswitchPosition.DOWN => 2
    | ToggleswitchPosition.UNKNOWN => f.character
  { f with
    smoothFuzz := f.smoothFuzz.setTarget (controls.knobs 0)
    smoothTone := f.smoothTone.setTarget (controls.knobs 1)
    smoothGate := f.smoothGate.setTarget (controls.knobs 2)
    smoothLevel := f.smoothLevel.setTarget (controls.knobs 3)
    smoothMix := f.smoothMix.setTarget (controls.knobs 5)
    character := character }

/-- Fuzz::process: noise gate, heavy pre-gain, character-selected
clipping, DC block, tone low-pass, dry/wet mix and level. -/
def process (f : Fuzz) (inputSample : ℚ) : ℚ × Fuzz :=
  let fuzzR := f.smoothFuzz.process
  let toneR := f.smoothTone.process
  let gateR := f.smoothGate.process
  let levelR := f.smoothLevel.process
  let mixR := f.smoothMix.process
  let fuzz := fuzzR.1
  let tone := toneR.1
  let gate := gateR.1
  let level := levelR.1
  let mix := mixR.1
  let gateThreshold := gate * 0.1
  let inputSample := if |inputSample| < gateThreshold then 0 else inputSample
  let amplified := inputSample * (1 + fuzz * (MAX_FUZZ_GAIN - 1))
  let clipped :=
    if f.character = 0 then vintageClip amplified
    else if f.character = 1 then modernClip amplified
    else octaveClip amplified
  let clipped2 := clipped - f.dcBlocker
  let dcBlocker := clipped * 0.995
  let toneAlpha := 0.2 + tone * 0.79
  let filtered := toneAlpha * clipped2 + (1 - toneAlpha) * f.previousSample
  let previousSample := filtered
  let toned := filtered
  let output := inputSample * (1 - mix) + toned * mix
  (output * level * 0.8,
    { f with
      previousSample := previousSample, dcBlocker := dcBlocker
      smoothFuzz := fuzzR.2, smoothTone := toneR.2, smoothGate := gateR.2
      smoothLevel := levelR.2, smoothMix := mixR.2 })

/-- Fuzz::reset. -/
def reset (f : Fuzz) : Fuzz :=
  { f with previousSample := 0, dcBlocker := 0 }

/-- A fuzz whose filter states hold only silence. -/
def Silent (f : Fuzz) : Prop := f.previousSample = 0 ∧ f.dcBlocker = 0

end Fuzz

/-- Tremolo effect state (class Tremolo in tremolo.cpp). -/
structure Tremolo where
  smoothRate : ParameterSmoother
  smoothDepth : ParameterSmoother
  smoothShape : ParameterSmoother
  smoothLevel : ParameterSmoother
  smoothMix : ParameterSmoother
  phase : ℚ
  sampleRate : ℚ
  mode : ℤ
  optoState : ℚ

namespace Tremolo

/-- The Tremolo constructor. -/
def init (sr : ℚ) : Tremolo where
  smoothRate := ParameterSmoother.init 20 sr 0.3
  smoothDepth := ParameterSmoother.init 20 sr 0.5
  smoothShape := ParameterSmoother.init 20 sr 0
  smoothLevel := ParameterSmoother.init 20 sr 1
  smoothMix := ParameterSmoother.init 20 sr 1
  phase := 0
  sampleRate := sr
  mode := 0
  optoState := 1

/-- Tremolo::getLFO: cross-fade sine to triangle for shape below 0.5 and
triangle to square above. -/
def getLFO (ops : FloatOps) (phase shape : ℚ) : ℚ :=
  let sine := ops.sinf (2 * M_PI * phase)
  let triangle := 2 * |2 * (phase - (⌊phase + 0.5⌋ : ℤ))| - 1
  let square : ℚ := if phase < 0.5 then 1 else -1
  if shape < 0.5 then
    let t := shape * 2
    sine * (1 - t) + triangle * t
  else
    let t := (shape - 0.5) * 2
    triangle * (1 - t) + square * t

/-- Tremolo::updateFromControls. -/
def updateFromControls (tr : Tremolo) (controls : HothouseControls) : Tremolo :=
  let mode :=
    match controls.toggles 0 with
    | ToggleswitchPosition.UP => (0 : ℤ)
    | ToggleswitchPosition.MIDDLE => 1
    | ToggleswitchPosition.DOWN => 2
    | ToggleswitchPosition.UNKNOWN => tr.mode
  { tr with
    smoothRate := tr.smoothRate.setTarget (0.5 + controls.knobs 0 * 19.5)
    smoothDepth := tr.smoothDepth.setTarget (controls.knobs 1)
    smoothShape := tr.smoothShape.setTarget (controls.knobs 2)
    smoothLevel := tr.smoothLevel.setTarget (controls.knobs 3)
    smoothMix := tr.smoothMix.setTarget (controls.knobs 5)
    mode := mode }

/-- Tremolo::process: mode-selected amplitude modulation from the LFO,
constrained to [0,1], then mix and level. -/
def process (ops : FloatOps) (tr : Tremolo) (inputSample : ℚ) : ℚ × Tremolo :=
  let rateR := tr.smoothRate.process
  let depthR := tr.smoothDepth.process
  let shapeR := tr.smoothShape.process
  let levelR := tr.smoothLevel.process
  let mixR := tr.smoothMix.process
  let rate := rateR.1
  let depth := depthR.1
  let shape := shapeR.1
  let level := levelR.1
  let mix := mixR.1
  let lfo := getLFO ops tr.phase shape
  let ampState :=
    if tr.mode = 0 then (1 - depth * 0.5 * (1 + lfo), tr.optoState)
    else if tr.mode = 1 then (1 - depth * (lfo + 1) * 0.5, tr.optoState)
    else
      let target := 1 - depth * (lfo + 1) * 0.5
      let coeff : ℚ := if target < tr.optoState then 0.99 else 0.995
      let optoState := tr.optoState * coeff + target * (1 - coeff)
      (optoState, optoState)
  let amplitude := ampState.1
  let optoState := ampState.2
  let amplitude := if amplitude < 0 then 0 else amplitude
  let amplitude := if amplitude > 1 then 1 else amplitude
  let phase := tr.phase + rate / tr.sampleRate
  let phase := if phase ≥ 1 then phase - 1 else phase
  let modulated := inputSample * amplitude
  let output := inputSample * (1 - mix) + modulated * mix
  (output * level,
    { tr with
      phase := phase, optoState := optoState
      smoothRate := rateR.2, smoothDepth := depthR.2, smoothShape := shapeR.2
      smoothLevel := levelR.2, smoothMix := mixR.2 })

/-- Tremolo::reset. -/
def reset (tr : Tremolo) : Tremolo :=
  { tr with phase := 0, optoState := 1 }

end Tremolo

/-- Compressor effect state (class Compressor in compressor.cpp). -/
structure Compressor where
  smoothThreshold : ParameterSmoother
  smoothRatio : ParameterSmoother
  smoothAttack : ParameterSmoother
  smoothRelease : ParameterSmoother
  smoothMakeup : ParameterSmoother
  smoothMix : ParameterSmoother
  envelope : ℚ
  gainReductionDb : ℚ
  kneeMode : ℤ
  kneeWidth : ℚ

namespace Compressor

/-- The Compressor constructor. -/
def init (sampleRate : ℚ) : Compressor where
  smoothThreshold := ParameterSmoother.init 20 sampleRate 0.5
  smoothRatio := ParameterSmoother.init 20 sampleRate 0.25
  smoothAttack := ParameterSmoother.init 20 sampleRate 0.3
  smoothRelease := ParameterSmoother.init 20 sampleRate 0.5
  smoothMakeup := ParameterSmoother.init 20 sampleRate 0.5
  smoothMix := ParameterSmoother.init 20 sampleRate 1
  envelope := 0
  gainReductionDb := 0
  kneeMode := 0
  kneeWidth := 6

/-- Compressor::getEnvelope: rectify and track asymmetrically with the
attack coefficient on rising input and the release coefficient
otherwise. -/
def getEnvelope (c : Compressor) (sample attack release : ℚ) : ℚ × Compressor :=
  let rectified := |sample|
  let envelope :=
    if rectified > c.envelope then attack * c.envelope + (1 - attack) * rectified
    else release * c.envelope + (1 - release) * rectified
  (envelope, { c with envelope := envelope })

/-- Compressor::computeGain over the abstract log10f/powf primitives:
unity gain for envelopes below 1e-4, otherwise knee-shaped gain in the
decibel domain; the negated gain is cached for the LED. -/
def computeGain (ops : FloatOps) (c : Compressor) (envLevel threshold ratio : ℚ) :
    ℚ × Compressor :=
  if envLevel < 0.0001 then (1, c)
  else
    let envDb := 20 * ops.log10f envLevel
    let threshDb := 20 * ops.log10f (threshold + 0.0001)
    let gainDb :=
      if c.kneeMode = 0 then
        if envDb > threshDb then threshDb + (envDb - threshDb) / ratio - envDb else 0
      else
        let knee := c.kneeWidth
        if envDb < threshDb - knee / 2 then 0
        else if envDb > threshDb + knee / 2 then threshDb + (envDb - threshDb) / ratio - envDb
        else (1 / ratio - 1) * (envDb - threshDb + knee / 2) * (envDb - threshDb + knee / 2) /
          (2 * knee)
    (ops.powf 10 (gainDb / 20), { c with gainReductionDb := -gainDb })

/-- Compressor::updateFromControls. -/
def updateFromControls (c : Compressor) (controls : HothouseControls) : Compressor :=
  let kneeState :=
    match controls.toggles 0 with
    | ToggleswitchPosition.UP => ((0 : ℤ), (0 : ℚ))
    | ToggleswitchPosition.MIDDLE => (1, 6)
    | ToggleswitchPosition.DOWN => (2, 12)
    | ToggleswitchPosition.UNKNOWN => (c.kneeMode, c.kneeWidth)
  { c with
    smoothThreshold := c.smoothThreshold.setTarget (0.01 + controls.knobs 0 * 0.99)
    smoothRatio := c.smoothRatio.setTarget (1 + controls.knobs 1 * 19)
    smoothAttack := c.smoothAttack.setTarget (0.5 + controls.knobs 2 * 0.49)
    smoothRelease := c.smoothRelease.setTarget (0.9 + controls.knobs 3 * 0.099)
    smoothMakeup := c.smoothMakeup.setTarget (1 + controls.knobs 4 * 9)
    smoothMix := c.smoothMix.setTarget (controls.knobs 5)
    kneeMode := kneeState.1
    kneeWidth := kneeState.2 }

/-- Compressor::process: envelope follower, knee-shaped gain computer,
makeup gain, hard output clamp and parallel dry/wet mix. -/
def process (ops : FloatOps) (c : Compressor) (inputSample : ℚ) : ℚ × Compressor :=
  let thresholdR := c.smoothThreshold.process
  let ratioR := c.smoothRatio.process
  let attackR := c.smoothAttack.process
  let releaseR := c.smoothRelease.process
  let makeupR := c.smoothMakeup.process
  let mixR := c.smoothMix.process
  let threshold := thresholdR.1
  let ratio := ratioR.1
  let attack := attackR.1
  let release := releaseR.1
  let makeup := makeupR.1
  let mix := mixR.1
  let c1 := { c with
    smoothThreshold := thresholdR.2, smoothRatio := ratioR.2, smoothAttack := attackR.2
    smoothRelease := releaseR.2, smoothMakeup := makeupR.2, smoothMix := mixR.2 }
  let envR := c1.getEnvelope inputSample attack release
  let gainR := envR.2.computeGain ops envR.1 threshold ratio
  let compressed := inputSample * gainR.1 * makeup
  let compressed := if compressed > 1 then 1 else compressed
  let compressed := if compressed < -1 then -1 else compressed
  (inputSample * (1 - mix) + compressed * mix, gainR.2)

/-- Compressor::reset. -/
def reset (c : Compressor) : Compressor :=
  { c with envelope := 0, gainReductionDb := 0 }

/-- A compressor whose envelope follower holds only silence. -/
def Silent (c : Compressor) : Prop := c.envelope = 0

end Compressor

namespace Compressor

/-- The knee-shaped decibel-domain gain computation inside
Compressor::computeGain, over the reals, as a function of the already
converted envelope and threshold decibel values. -/
noncomputable def gainDbR (kneeMode : ℤ) (kneeWidth envDb threshDb ratio : ℝ) : ℝ :=
  if kneeMode = 0 then
    if envDb > threshDb then threshDb + (envDb - threshDb) / ratio - envDb else 0
  else
    if envDb < threshDb - kneeWidth / 2 then 0
    else if envDb > threshDb + kneeWidth / 2 then threshDb + (envDb - threshDb) / ratio - envDb
    else (1 / ratio - 1) * (envDb - threshDb + kneeWidth / 2) * (envDb - threshDb + kneeWidth / 2) /
      (2 * kneeWidth)

/-- Real-valued model of Compressor::computeGain with log10f interpreted
as the base-10 logarithm and powf 10 as the real power of 10.  As in the
source, the epsilon 1e-4 is added to the threshold only, and envelopes
below 1e-4 short-circuit to unity gain before any logarithm is taken. -/
noncomputable def computeGainR (kneeMode : ℤ) (kneeWidth envLevel threshold ratio : ℝ) : ℝ :=
  if envLevel < 0.0001 then 1
  else
    let envDb := 20 * Real.logb 10 envLevel
    let threshDb := 20 * Real.logb 10 (threshold + 0.0001)
    (10 : ℝ) ^ (gainDbR kneeMode kneeWidth envDb threshDb ratio / 20)

/-- Modelled from the spec: the claim's reading of computeGain in which
the small epsilon is added to the envelope as well as the threshold
before the logarithm. -/
noncomputable def computeGainSpecR (kneeMode : ℤ) (kneeWidth envLevel threshold ratio : ℝ) : ℝ :=
  if envLevel < 0.0001 then 1
  else
    let envDb := 20 * Real.logb 10 (envLevel + 0.0001)
    let threshDb := 20 * Real.logb 10 (threshold + 0.0001)
    (10 : ℝ) ^ (gainDbR kneeMode kneeWidth envDb threshDb ratio / 20)

end Compressor

/-- An interpretation of the math primitives that sends everything to
zero; used only to instantiate universally quantified theorems at a
concrete input. -/
def opsZero : FloatOps where
  sinf := fun _ => 0
  log10f := fun _ => 0
  powf := fun _ _ => 1

/-- A concrete non-trivial effect over a unit state, used to instantiate
the pedal dispatcher theorems. -/
def effShift : EffectImpl Unit where
  process := fun s x => (x + 1, s)
  updateFromControls := fun s _ => s
  getLedState := fun _ => 1

/-- A concrete pedal state that is bypassed with an installed effect. -/
def pedalBypassed : HothousePedal Unit where
  currentEffect := some ()
  controls := HothouseControls.init
  leds := fun _ => 0
  bypassed := true

/-- A control snapshot with a rising edge on footswitch 1. -/
def controlsEdge : HothouseControls :=
  { HothouseControls.init with
    footswitchRisingEdge := fun _ => true
    footswitchPressed := fun _ => true }

/-- A control snapshot with footswitch 1 held but no rising edge. -/
def controlsHeld : HothouseControls :=
  { HothouseControls.init with footswitchPressed := fun _ => true }

/-- A control snapshot with toggle 1 in the UP position. -/
def controlsUp : HothouseControls :=
  { HothouseControls.init with toggles := fun _ => ToggleswitchPosition.UP }

/-- A control snapshot with every toggle in the UNKNOWN position. -/
def controlsUnknown : HothouseControls :=
  { HothouseControls.init with toggles := fun _ => ToggleswitchPosition.UNKNOWN }

/-- A delay state whose mix smoother has current and target value 0. -/
def delayMixZero : Delay :=
  { Delay.init 48000 with
    smoothMix := { currentValue := 0, targetValue := 0, coefficient := 1 - 1/960 } }

/-- A chorus state whose mix smoother has current and target value 0. -/
def chorusMixZero : Chorus :=
  { Chorus.init 48000 with
    smoothMix := { currentValue := 0, targetValue := 0, coefficient := 1 - 1/960 } }

/-- Fold an effect step over an input list, keeping the final state. -/
def foldEffect {σ : Type} (step : σ → ℚ → ℚ × σ) : σ → List ℚ → σ
  | s, [] => s
  | s, x :: xs => foldEffect step (step s x).2 xs

/-- The one-sided ceiling clamp of the source, written as a min. -/
theorem ite_gt_eq_min (a b : ℚ) : (if a > b then b else a) = min a b := by
  rcases le_or_lt a b with h | h
  · rw [if_neg (not_lt.mpr h), min_eq_left h]
  · rw [if_pos h, min_eq_right h.le]

/-- Updating an all-zero buffer with a zero sample keeps it all zero. -/
theorem update_zero_zero {f : ℕ → ℚ} (h : ∀ i, f i = 0) (j i : ℕ) :
    Function.update f j 0 i = 0 := by
  rcases eq_or_ne i j with rfl | hne
  · simp
  · simp [Function.update, hne, h i]

/-- Any step function that maps silence to silence turns an all-zero
input list into an all-zero output list. -/
theorem runEffect_zero {σ : Type} (step : σ → ℚ → ℚ × σ) (Inv : σ → Prop)
    (h : ∀ s, Inv s → (step s 0).1 = 0 ∧ Inv (step s 0).2) :
    ∀ (n : ℕ) (s : σ), Inv s → runEffect step s (List.replicate n 0) = List.replicate n 0 := by
  intro n
  induction n with
  | zero => intro s _; simp [runEffect]
  | succ n ih =>
    intro s hs
    rw [List.replicate_succ, runEffect, (h s hs).1, ih _ (h s hs).2]

/-- A state invariant preserved by one step is preserved by a fold. -/
theorem foldEffect_inv {σ : Type} (step : σ → ℚ → ℚ × σ) (Inv : σ → Prop)
    (h : ∀ s x, Inv s → Inv (step s x).2) :
    ∀ (xs : List ℚ) (s : σ), Inv s → Inv (foldEffect step s xs) := by
  intro xs
  induction xs with
  | nil => intro s hs; simpa [foldEffect] using hs
  | cons x xs ih => intro s hs; rw [foldEffect]; exact ih _ (h s x hs)

/-- C1: a control snapshot whose footswitch-1 rising-edge flag is true
flips the bypass flag exactly once per updateControls call; a snapshot
with the held-pressed flag true but no rising edge leaves the bypass flag
unchanged; and whenever the pedal is bypassed or no effect is installed,
process returns the input sample unchanged, for every input sample and
every installed effect. -/
theorem C1_dispatcher_bypass {σ : Type} (E : EffectImpl σ) (p : HothousePedal σ)
    (c : HothouseControls) (x : ℚ) :
    (c.footswitchRisingEdge 0 = true →
      (p.updateControls E c).bypassed = !p.bypassed) ∧
    (c.footswitchPressed 0 = true → c.footswitchRisingEdge 0 = false →
      (p.updateControls E c).bypassed = p.bypassed) ∧
    (p.bypassed = true ∨ p.currentEffect = none →
      (p.process E x).1 = x) := by
  refine ⟨fun h => ?_, fun _ h2 => ?_, fun h => ?_⟩
  · simp [HothousePedal.updateControls, h]
  · simp [HothousePedal.updateControls, h2]
  · rcases h with h | h
    · simp [HothousePedal.process, h]
    · simp [HothousePedal.process, h]

/-- Witness for C1 at a concrete pedal, effect and snapshots. -/
theorem C1_dispatcher_bypass_witness :
    (controlsEdge.footswitchRisingEdge 0 = true ∧
      (pedalBypassed.updateControls effShift controlsEdge).bypassed = !pedalBypassed.bypassed) ∧
    (controlsHeld.footswitchPressed 0 = true ∧ controlsHeld.footswitchRisingEdge 0 = false ∧
      (pedalBypassed.updateControls effShift controlsHeld).bypassed = pedalBypassed.bypassed) ∧
    (pedalBypassed.bypassed = true ∧ (pedalBypassed.process effShift 7).1 = 7) :=
  ⟨⟨rfl, (C1_dispatcher_bypass effShift pedalBypassed controlsEdge 7).1 rfl⟩,
    ⟨rfl, rfl, (C1_dispatcher_bypass effShift pedalBypassed controlsHeld 7).2.1 rfl rfl⟩,
    ⟨rfl, (C1_dispatcher_bypass effShift pedalBypassed controlsHeld 7).2.2 (Or.inl rfl)⟩⟩

/-- C4: setSmoothing always produces a coefficient in [0,1) (flooring the
sample count at 1), and for every coefficient in [0,1) a process call
returns a value between the previous current value and the target,
strictly closer to the target whenever they differ, so repeated calls
approach the target monotonically without overshoot. -/
theorem C4_smoother_monotone :
    (∀ (s : ParameterSmoother) (smoothingMs sampleRate : ℚ),
      0 ≤ (s.setSmoothing smoothingMs sampleRate).coefficient ∧
        (s.setSmoothing smoothingMs sampleRate).coefficient < 1) ∧
    (∀ s : ParameterSmoother, 0 ≤ s.coefficient → s.coefficient < 1 →
      (s.currentValue ≤ s.targetValue →
        s.currentValue ≤ (s.process).1 ∧ (s.process).1 ≤ s.targetValue) ∧
      (s.targetValue ≤ s.currentValue →
        s.targetValue ≤ (s.process).1 ∧ (s.process).1 ≤ s.currentValue) ∧
      (s.currentValue ≠ s.targetValue →
        |(s.process).1 - s.targetValue| < |s.currentValue - s.targetValue|)) := by
  constructor
  · intro s smoothingMs sampleRate
    rw [ParameterSmoother.setSmoothing]
    rcases lt_or_le (smoothingMs / 1000 * sampleRate) 1 with h | h
    · rw [if_pos h]
      norm_num
    · rw [if_neg (not_lt.mpr h)]
      have hpos : (0:ℚ) < smoothingMs / 1000 * sampleRate := lt_of_lt_of_le one_pos h
      have h1 : 1 / (smoothingMs / 1000 * sampleRate) ≤ 1 := by
        rw [div_le_one hpos]; exact h
      have h2 : 0 < 1 / (smoothingMs / 1000 * sampleRate) := by positivity
      constructor
      · dsimp only
        linarith
      · dsimp only
        linarith
  · intro s h0 h1
    have hstep : (s.process).1 - s.targetValue
        = s.coefficient * (s.currentValue - s.targetValue) := by
      rw [ParameterSmoother.process]
      ring
    refine ⟨fun hle => ?_, fun hge => ?_, fun hne => ?_⟩
    · constructor
      · have : (s.process).1 - s.currentValue
            = (1 - s.coefficient) * (s.targetValue - s.currentValue) := by
          rw [ParameterSmoother.process]; ring
        nlinarith
      · nlinarith [hstep]
    · constructor
      · nlinarith [hstep]
      · have : s.currentValue - (s.process).1
            = (1 - s.coefficient) * (s.currentValue - s.targetValue) := by
          rw [ParameterSmoother.process]; ring
        nlinarith
    · rw [hstep, abs_mul, abs_of_nonneg h0]
      have hd : 0 < |s.currentValue - s.targetValue| :=
        abs_pos.mpr (sub_ne_zero.mpr hne)
      nlinarith

/-- Witness for C4 at a concrete smoother state. -/
theorem C4_smoother_monotone_witness :
    ((0:ℚ) ≤ (ParameterSmoother.setSmoothing ⟨0, 0, 0⟩ 20 48000).coefficient ∧
      (ParameterSmoother.setSmoothing ⟨0, 0, 0⟩ 20 48000).coefficient < 1) ∧
    (0:ℚ) ≤ (0:ℚ) ∧ (0:ℚ) < 1 ∧ (0:ℚ) ≤ (1:ℚ) ∧
    ((0:ℚ) ≤ ((ParameterSmoother.mk 0 1 0).process).1 ∧
      ((ParameterSmoother.mk 0 1 0).process).1 ≤ 1) :=
  ⟨C4_smoother_monotone.1 ⟨0, 0, 0⟩ 20 48000,
    le_refl 0, zero_lt_one, zero_le_one,
    (C4_smoother_monotone.2 ⟨0, 1, 0⟩ (le_refl 0) zero_lt_one).1 zero_le_one⟩

/-- The target value is unchanged by iterated process calls, and the gap
to the target contracts geometrically with the coefficient. -/
theorem iterate_gap (n : ℕ) :
    ∀ s : ParameterSmoother,
      (s.iterate n).currentValue - s.targetValue
        = s.coefficient ^ n * (s.currentValue - s.targetValue) := by
  induction n with
  | zero => intro s; simp [ParameterSmoother.iterate]
  | succ n ih =>
    intro s
    rw [ParameterSmoother.iterate]
    have h := ih (s.process).2
    have ht : (s.process).2.targetValue = s.targetValue := rfl
    have hc : (s.process).2.coefficient = s.coefficient := rfl
    have hv : (s.process).2.currentValue
        = s.currentValue * s.coefficient + s.targetValue * (1 - s.coefficient) := rfl
    rw [ht, hc, hv] at h
    rw [h]
    ring

/-- One time-constant of the discrete exponential filter: n steps of a
decay with coefficient 1 - 1/n shrink a gap to at most 37% of it. -/
theorem one_sub_inv_pow_le (n : ℕ) (hn : 1 ≤ n) : ((1 : ℚ) - 1/n)^n ≤ 37/100 := by
  have hx : (1 : ℝ) ≤ (n : ℝ) := by exact_mod_cast hn
  have hx0 : (0 : ℝ) < (n : ℝ) := by linarith
  have h0 : (0 : ℝ) ≤ 1 - 1/(n:ℝ) := by
    have : 1/(n:ℝ) ≤ 1 := by
      rw [div_le_one hx0]; exact hx
    linarith
  have h1 : (1 : ℝ) - 1/(n:ℝ) ≤ Real.exp (-(1/(n:ℝ))) := by
    have := Real.add_one_le_exp (-(1/(n:ℝ)))
    linarith
  have h2 : ((1 : ℝ) - 1/(n:ℝ))^n ≤ (Real.exp (-(1/(n:ℝ))))^n :=
    pow_le_pow_left₀ h0 h1 n
  have h3 : (Real.exp (-(1/(n:ℝ))))^n = Real.exp ((n : ℝ) * (-(1/(n:ℝ)))) := by
    rw [Real.exp_nat_mul]
  have h4 : (n : ℝ) * (-(1/(n:ℝ))) = -1 := by
    field_simp
  have h5 : Real.exp (-1) ≤ 37/100 := by
    rw [Real.exp_neg]
    have he : (100:ℝ)/37 ≤ Real.exp 1 := by
      have := Real.exp_one_gt_d9
      nlinarith
    have hepos : (0:ℝ) < Real.exp 1 := Real.exp_pos 1
    rw [inv_le_iff_one_le_mul₀ hepos]
    nlinarith
  have hreal : ((1 : ℝ) - 1/(n:ℝ))^n ≤ 37/100 := by
    calc ((1 : ℝ) - 1/(n:ℝ))^n ≤ (Real.exp (-(1/(n:ℝ))))^n := h2
    _ = Real.exp ((n : ℝ) * (-(1/(n:ℝ)))) := h3
    _ = Real.exp (-1) := by rw [h4]
    _ ≤ 37/100 := h5
  have hcast : (((1 : ℚ) - 1/n)^n : ℚ) ≤ 37/100
      ↔ ((((1 : ℚ) - 1/n)^n : ℚ) : ℝ) ≤ ((37/100 : ℚ) : ℝ) := by
    exact_mod_cast Iff.rfl
  rw [hcast]
  push_cast
  convert hreal using 2

/-- C5: for a smoother configured from smoothingMs and sampleRate, with
n = max(1, smoothingMs/1000 * sampleRate) samples, after a step change of
the target and n process calls with the target held fixed the remaining
gap is at most 37% of the gap immediately after the step. -/
theorem C5_smoother_time_constant (s0 : ParameterSmoother)
    (smoothingMs sampleRate target : ℚ) (n : ℕ)
    (hn : (n : ℚ) = max 1 (smoothingMs / 1000 * sampleRate)) :
    |((((s0.setSmoothing smoothingMs sampleRate).setTarget target).iterate n).currentValue
        - target)| ≤ 37/100 * |s0.currentValue - target| := by
  have hn1 : 1 ≤ n := by
    have : (1:ℚ) ≤ (n:ℚ) := hn ▸ le_max_left 1 _
    exact_mod_cast this
  have hnq : (0:ℚ) < (n:ℚ) := by
    have : (1:ℚ) ≤ (n:ℚ) := hn ▸ le_max_left 1 _
    linarith
  have hcoeff :
      ((s0.setSmoothing smoothingMs sampleRate).setTarget target).coefficient
        = 1 - 1/(n:ℚ) := by
    rw [ParameterSmoother.setTarget, ParameterSmoother.setSmoothing]
    have : (if smoothingMs / 1000 * sampleRate < 1 then (1:ℚ)
        else smoothingMs / 1000 * sampleRate) = max 1 (smoothingMs / 1000 * sampleRate) := by
      rcases lt_or_le (smoothingMs / 1000 * sampleRate) 1 with h | h
      · rw [if_pos h, max_eq_left h.le]
      · rw [if_neg (not_lt.mpr h), max_eq_right h]
    dsimp only
    rw [this, ← hn]
  have hgap := iterate_gap n ((s0.setSmoothing smoothingMs sampleRate).setTarget target)
  have htv : ((s0.setSmoothing smoothingMs sampleRate).setTarget target).targetValue
      = target := rfl
  have hcv : ((s0.setSmoothing smoothingMs sampleRate).setTarget target).currentValue
      = s0.currentValue := rfl
  rw [htv, hcv, hcoeff] at hgap
  rw [hgap, abs_mul]
  have hc0 : (0:ℚ) ≤ 1 - 1/(n:ℚ) := by
    have : 1/(n:ℚ) ≤ 1 := by
      rw [div_le_one hnq]
      exact_mod_cast hn1
    linarith
  rw [abs_of_nonneg (pow_nonneg hc0 n)]
  exact mul_le_mul_of_nonneg_right (one_sub_inv_pow_le n hn1) (abs_nonneg _)

/-- Witness for C5: smoothing 1000 ms at 3 samples per second gives a
3-sample time constant. -/
theorem C5_smoother_time_constant_witness :
    ((3:ℕ) : ℚ) = max 1 (1000 / 1000 * 3) ∧
    |((((ParameterSmoother.setSmoothing ⟨0, 0, 0⟩ 1000 3).setTarget 1).iterate 3).currentValue
        - 1)| ≤ 37/100 * |(0:ℚ) - 1| := by
  have h : ((3:ℕ) : ℚ) = max 1 (1000 / 1000 * 3) := by
    rw [max_eq_right (by norm_num : (1:ℚ) ≤ 1000 / 1000 * 3)]
    norm_num
  exact ⟨h, C5_smoother_time_constant ⟨0, 0, 0⟩ 1000 3 1 3 h⟩

/-- C2: every Reverb::process call installs the feedback gain
min(0.5 + size * sizeMultiplier * 0.35, 0.95) into all four comb filters,
where size is the smoothed size parameter; that gain never exceeds 0.95;
and updateFromControls sets the multiplier to 0.5, 1.0 or 1.5 for the
UP, MIDDLE and DOWN room-type toggle positions. -/
theorem C2_reverb_feedback_ceiling (r : Reverb) (x : ℚ) (c : HothouseControls) :
    ((r.process x).2.comb0.feedback
        = min (0.5 + (r.smoothSize.process).1 * r.sizeMultiplier * 0.35) 0.95 ∧
      (r.process x).2.comb1.feedback
        = min (0.5 + (r.smoothSize.process).1 * r.sizeMultiplier * 0.35) 0.95 ∧
      (r.process x).2.comb2.feedback
        = min (0.5 + (r.smoothSize.process).1 * r.sizeMultiplier * 0.35) 0.95 ∧
      (r.process x).2.comb3.feedback
        = min (0.5 + (r.smoothSize.process).1 * r.sizeMultiplier * 0.35) 0.95) ∧
    min (0.5 + (r.smoothSize.process).1 * r.sizeMultiplier * 0.35) 0.95 ≤ 0.95 ∧
    (c.toggles 0 = ToggleswitchPosition.UP →
      (r.updateFromControls c).sizeMultiplier = 0.5) ∧
    (c.toggles 0 = ToggleswitchPosition.MIDDLE →
      (r.updateFromControls c).sizeMultiplier = 1) ∧
    (c.toggles 0 = ToggleswitchPosition.DOWN →
      (r.updateFromControls c).sizeMultiplier = 1.5) := by
  refine ⟨⟨?_, ?_, ?_, ?_⟩, min_le_right _ _, fun h => ?_, fun h => ?_, fun h => ?_⟩
  · simp only [Reverb.process, CombFilter.process, CombFilter.setFeedback,
      CombFilter.setDamping]
    exact ite_gt_eq_min _ _
  · simp only [Reverb.process, CombFilter.process, CombFilter.setFeedback,
      CombFilter.setDamping]
    exact ite_gt_eq_min _ _
  · simp only [Reverb.process, CombFilter.process, CombFilter.setFeedback,
      CombFilter.setDamping]
    exact ite_gt_eq_min _ _
  · simp only [Reverb.process, CombFilter.process, CombFilter.setFeedback,
      CombFilter.setDamping]
    exact ite_gt_eq_min _ _
  · simp [Reverb.updateFromControls, h]
  · simp [Reverb.updateFromControls, h]
  · simp [Reverb.updateFromControls, h]

/-- Witness for C2 at the freshly constructed reverb, a zero sample and
an UP room-type snapshot. -/
theorem C2_reverb_feedback_ceiling_witness :
    controlsUp.toggles 0 = ToggleswitchPosition.UP ∧
    ((Reverb.init 48000).updateFromControls controlsUp).sizeMultiplier = 0.5 ∧
    ((Reverb.init 48000).process 0).2.comb0.feedback
      = min (0.5 + ((Reverb.init 48000).smoothSize.process).1
          * (Reverb.init 48000).sizeMultiplier * 0.35) 0.95 :=
  ⟨rfl, (C2_reverb_feedback_ceiling (Reverb.init 48000) 0 controlsUp).2.2.1 rfl,
    (C2_reverb_feedback_ceiling (Reverb.init 48000) 0 controlsUp).1.1⟩

/-- C3: CombFilter::process returns the buffered sample at the cursor,
low-passes it into the damping accumulator, writes input plus damped
feedback at the cursor and advances the cursor modulo the buffer length;
AllpassFilter::process returns the negated input plus the buffered
sample, writes input plus the 0.5-scaled buffered sample, and advances
its cursor modulo its length; the reverb is built with comb lengths
1557/1617/1491/1422 and allpass lengths 225/556 at gain 0.5. -/
theorem C3_filter_equations :
    (∀ (c : CombFilter) (input : ℚ),
      (c.process input).1 = c.buffer c.index ∧
      (c.process input).2.dampState
        = c.buffer c.index * (1 - c.damping) + c.dampState * c.damping ∧
      (c.process input).2.buffer
        = Function.update c.buffer c.index
            (input + (c.buffer c.index * (1 - c.damping) + c.dampState * c.damping)
              * c.feedback) ∧
      (c.process input).2.index = (c.index + 1) % c.bufferSize) ∧
    (∀ (a : AllpassFilter) (input : ℚ),
      (a.process input).1 = -input + a.buffer a.index ∧
      (a.process input).2.buffer
        = Function.update a.buffer a.index (input + a.buffer a.index * a.gain) ∧
      (a.process input).2.index = (a.index + 1) % a.bufferSize) ∧
    (∀ sampleRate : ℚ,
      (Reverb.init sampleRate).comb0.bufferSize = 1557 ∧
      (Reverb.init sampleRate).comb1.bufferSize = 1617 ∧
      (Reverb.init sampleRate).comb2.bufferSize = 1491 ∧
      (Reverb.init sampleRate).comb3.bufferSize = 1422 ∧
      (Reverb.init sampleRate).allpass0.bufferSize = 225 ∧
      (Reverb.init sampleRate).allpass1.bufferSize = 556 ∧
      (Reverb.init sampleRate).allpass0.gain = 0.5 ∧
      (Reverb.init sampleRate).allpass1.gain = 0.5 ∧
      baseCombDelays = [1557, 1617, 1491, 1422] ∧
      baseAllpassDelays = [225, 556]) :=
  ⟨fun _ _ => ⟨rfl, rfl, rfl, rfl⟩,
    fun _ _ => ⟨rfl, rfl, rfl⟩,
    fun _ => ⟨rfl, rfl, rfl, rfl, rfl, rfl, rfl, rfl, rfl, rfl⟩⟩

/-- C9: for the Delay and Chorus effects, when the mix smoother's current
and target values are both 0, process returns the input sample exactly,
for every input, every buffer and filter state, and every other
parameter. -/
theorem C9_mix_zero_identity :
    (∀ (d : Delay) (x : ℚ), d.smoothMix.currentValue = 0 →
      d.smoothMix.targetValue = 0 → (d.process x).1 = x) ∧
    (∀ (ops : FloatOps) (c : Chorus) (x : ℚ), c.smoothMix.currentValue = 0 →
      c.smoothMix.targetValue = 0 → (Chorus.process ops c x).1 = x) := by
  constructor
  · intro d x h1 h2
    simp only [Delay.process, ParameterSmoother.process, h1, h2]
    ring
  · intro ops c x h1 h2
    simp only [Chorus.process, ParameterSmoother.process, h1, h2]
    ring

/-- Witness for C9 at concrete delay and chorus states with the mix
smoother pinned at 0. -/
theorem C9_mix_zero_identity_witness :
    delayMixZero.smoothMix.currentValue = 0 ∧ delayMixZero.smoothMix.targetValue = 0 ∧
    (delayMixZero.process 7).1 = 7 ∧
    chorusMixZero.smoothMix.currentValue = 0 ∧ chorusMixZero.smoothMix.targetValue = 0 ∧
    (Chorus.process opsZero chorusMixZero 7).1 = 7 :=
  ⟨rfl, rfl, C9_mix_zero_identity.1 delayMixZero 7 rfl rfl,
    rfl, rfl, C9_mix_zero_identity.2 opsZero chorusMixZero 7 rfl rfl⟩

set_option maxHeartbeats 2000000 in
/-- The value Delay::process stores at the write cursor lies in [-1, 1]
and every other buffer entry is untouched. -/
theorem delay_write_clamped (d : Delay) (x : ℚ) :
    (-1 ≤ (d.process x).2.delayBuffer d.writeIndex ∧
      (d.process x).2.delayBuffer d.writeIndex ≤ 1) ∧
    ∀ i, i ≠ d.writeIndex → (d.process x).2.delayBuffer i = d.delayBuffer i := by
  constructor
  · simp only [Delay.process, Function.update_same]
    constructor
    · split_ifs <;> linarith
    · split_ifs <;> linarith
  · intro i hi
    simp only [Delay.process, Function.update_noteq hi]

/-- C8: every sample written into the delay buffer is clamped into
[-1, 1] before the cursor advances, so from the reset state every entry
of the delay buffer stays in [-1, 1] after any sequence of process calls,
even for inputs outside [-1, 1]. -/
theorem C8_delay_buffer_bounded (d : Delay) (x : ℚ) (xs : List ℚ) :
    (-1 ≤ (d.process x).2.delayBuffer d.writeIndex ∧
      (d.process x).2.delayBuffer d.writeIndex ≤ 1) ∧
    ((∀ i, -1 ≤ d.delayBuffer i ∧ d.delayBuffer i ≤ 1) →
      ∀ i, -1 ≤ (d.process x).2.delayBuffer i ∧ (d.process x).2.delayBuffer i ≤ 1) ∧
    (∀ i, -1 ≤ (foldEffect Delay.process (d.reset) xs).delayBuffer i ∧
      (foldEffect Delay.process (d.reset) xs).delayBuffer i ≤ 1) := by
  have hstep : ∀ (s : Delay) (y : ℚ),
      (∀ i, -1 ≤ s.delayBuffer i ∧ s.delayBuffer i ≤ 1) →
      ∀ i, -1 ≤ (s.process y).2.delayBuffer i ∧ (s.process y).2.delayBuffer i ≤ 1 := by
    intro s y hs i
    rcases eq_or_ne i s.writeIndex with rfl | hi
    · exact (delay_write_clamped s y).1
    · rw [(delay_write_clamped s y).2 i hi]
      exact hs i
  refine ⟨(delay_write_clamped d x).1, hstep d x, ?_⟩
  have hinit : ∀ i, -1 ≤ (d.reset).delayBuffer i ∧ (d.reset).delayBuffer i ≤ 1 := by
    intro i
    constructor <;> norm_num [Delay.reset]
  exact foldEffect_inv Delay.process
    (fun s => ∀ i, -1 ≤ s.delayBuffer i ∧ s.delayBuffer i ≤ 1)
    (fun s y hs => hstep s y hs) xs (d.reset) hinit

/-- Witness for C8 at the freshly constructed delay and an out-of-range
input sample. -/
theorem C8_delay_buffer_bounded_witness :
    (∀ i, -1 ≤ (Delay.init 48000).delayBuffer i ∧ (Delay.init 48000).delayBuffer i ≤ 1) ∧
    (-1 ≤ ((Delay.init 48000).process 5).2.delayBuffer (Delay.init 48000).writeIndex ∧
      ((Delay.init 48000).process 5).2.delayBuffer (Delay.init 48000).writeIndex ≤ 1) ∧
    (∀ i, -1 ≤ ((Delay.init 48000).process 5).2.delayBuffer i ∧
      ((Delay.init 48000).process 5).2.delayBuffer i ≤ 1) := by
  have hinit : ∀ i, -1 ≤ (Delay.init 48000).delayBuffer i
      ∧ (Delay.init 48000).delayBuffer i ≤ 1 := by
    intro i
    constructor <;> norm_num [Delay.init]
  exact ⟨hinit, (C8_delay_buffer_bounded (Delay.init 48000) 5 []).1,
    (C8_delay_buffer_bounded (Delay.init 48000) 5 []).2.1 hinit⟩

/-- C10: for every effect variant, updateFromControls with toggle switch
1 in the UNKNOWN position leaves the discrete mode state (voicing, clip
mode, character, waveform, tremolo mode, time multiplier, room type and
size multiplier, knee mode and knee width) unchanged, while the
knob-driven smoother targets are still updated from the snapshot. -/
theorem C10_unknown_toggle_frame :
    (∀ (c : HothouseControls) (o : Overdrive),
      c.toggles 0 = ToggleswitchPosition.UNKNOWN →
      (o.updateFromControls c).voicing = o.voicing ∧
      (o.updateFromControls c).smoothDrive.targetValue = c.knobs 0 ∧
      (o.updateFromControls c).smoothTone.targetValue = c.knobs 1 ∧
      (o.updateFromControls c).smoothBass.targetValue = c.knobs 2 ∧
      (o.updateFromControls c).smoothLevel.targetValue = c.knobs 3 ∧
      (o.updateFromControls c).smoothMix.targetValue = c.knobs 5) ∧
    (∀ (c : HothouseControls) (d : Distortion),
      c.toggles 0 = ToggleswitchPosition.UNKNOWN →
      (d.updateFromControls c).clipMode = d.clipMode ∧
      (d.updateFromControls c).smoothGain.targetValue = c.knobs 0 ∧
      (d.updateFromControls c).smoothTone.targetValue = c.knobs 1 ∧
      (d.updateFromControls c).smoothBass.targetValue = c.knobs 2 ∧
      (d.updateFromControls c).smoothLevel.targetValue = c.knobs 3 ∧
      (d.updateFromControls c).smoothMix.targetValue = c.knobs 5) ∧
    (∀ (c : HothouseControls) (f : Fuzz),
      c.toggles 0 = ToggleswitchPosition.UNKNOWN →
      (f.updateFromControls c).character = f.character ∧
      (f.updateFromControls c).smoothFuzz.targetValue = c.knobs 0 ∧
      (f.updateFromControls c).smoothTone.targetValue = c.knobs 1 ∧
      (f.updateFromControls c).smoothGate.targetValue = c.knobs 2 ∧
      (f.updateFromControls c).smoothLevel.targetValue = c.knobs 3 ∧
      (f.updateFromControls c).smoothMix.targetValue = c.knobs 5) ∧
    (∀ (c : HothouseControls) (ch : Chorus),
      c.toggles 0 = ToggleswitchPosition.UNKNOWN →
      (ch.updateFromControls c).waveform = ch.waveform ∧
      (ch.updateFromControls c).smoothRate.targetValue = 0.1 + c.knobs 0 * 4.9 ∧
      (ch.updateFromControls c).smoothDepth.targetValue = c.knobs 1 ∧
      (ch.updateFromControls c).smoothMix.targetValue = c.knobs 5) ∧
    (∀ (c : HothouseControls) (tr : Tremolo),
      c.toggles 0 = ToggleswitchPosition.UNKNOWN →
      (tr.updateFromControls c).mode = tr.mode ∧
      (tr.updateFromControls c).smoothRate.targetValue = 0.5 + c.knobs 0 * 19.5 ∧
      (tr.updateFromControls c).smoothDepth.targetValue = c.knobs 1 ∧
      (tr.updateFromControls c).smoothShape.targetValue = c.knobs 2 ∧
      (tr.updateFromControls c).smoothLevel.targetValue = c.knobs 3 ∧
      (tr.updateFromControls c).smoothMix.targetValue = c.knobs 5) ∧
    (∀ (c : HothouseControls) (d : Delay),
      c.toggles 0 = ToggleswitchPosition.UNKNOWN →
      (d.updateFromControls c).timeMultiplier = d.timeMultiplier ∧
      (d.updateFromControls c).smoothTime.targetValue = c.knobs 0 * d.timeMultiplier ∧
      (d.updateFromControls c).smoothFeedback.targetValue = c.knobs 1 * 0.9 ∧
      (d.updateFromControls c).smoothFilter.targetValue = c.knobs 2 ∧
      (d.updateFromControls c).smoothLevel.targetValue = c.knobs 3 ∧
      (d.updateFromControls c).smoothMix.targetValue = c.knobs 5) ∧
    (∀ (c : HothouseControls) (r : Reverb),
      c.toggles 0 = ToggleswitchPosition.UNKNOWN →
      (r.updateFromControls c).roomType = r.roomType ∧
      (r.updateFromControls c).sizeMultiplier = r.sizeMultiplier ∧
      (r.updateFromControls c).smoothSize.targetValue = c.knobs 0 ∧
      (r.updateFromControls c).smoothDamping.targetValue = c.knobs 1 ∧
      (r.updateFromControls c).smoothPredelay.targetValue = c.knobs 2 ∧
      (r.updateFromControls c).smoothLevel.targetValue = c.knobs 3 ∧
      (r.updateFromControls c).smoothMix.targetValue = c.knobs 5) ∧
    (∀ (c : HothouseControls) (cp : Compressor),
      c.toggles 0 = ToggleswitchPosition.UNKNOWN →
      (cp.updateFromControls c).kneeMode = cp.kneeMode ∧
      (cp.updateFromControls c).kneeWidth = cp.kneeWidth ∧
      (cp.updateFromControls c).smoothThreshold.targetValue = 0.01 + c.knobs 0 * 0.99 ∧
      (cp.updateFromControls c).smoothRatio.targetValue = 1 + c.knobs 1 * 19 ∧
      (cp.updateFromControls c).smoothAttack.targetValue = 0.5 + c.knobs 2 * 0.49 ∧
      (cp.updateFromControls c).smoothRelease.targetValue = 0.9 + c.knobs 3 * 0.099 ∧
      (cp.updateFromControls c).smoothMakeup.targetValue = 1 + c.knobs 4 * 9 ∧
      (cp.updateFromControls c).smoothMix.targetValue = c.knobs 5) := by
  refine ⟨fun c o h => ?_, fun c d h => ?_, fun c f h => ?_, fun c ch h => ?_,
    fun c tr h => ?_, fun c d h => ?_, fun c r h => ?_, fun c cp h => ?_⟩
  · simp [Overdrive.updateFromControls, ParameterSmoother.setTarget, h]
  · simp [Distortion.updateFromControls, ParameterSmoother.setTarget, h]
  · simp [Fuzz.updateFromControls, ParameterSmoother.setTarget, h]
  · simp [Chorus.updateFromControls, ParameterSmoother.setTarget, h]
  · simp [Tremolo.updateFromControls, ParameterSmoother.setTarget, h]
  · simp [Delay.updateFromControls, ParameterSmoother.setTarget, h]
  · simp [Reverb.updateFromControls, ParameterSmoother.setTarget, h]
  · simp [Compressor.updateFromControls, ParameterSmoother.setTarget, h]

/-- Witness for C10 at the freshly constructed effects and an UNKNOWN
snapshot. -/
theorem C10_unknown_toggle_frame_witness :
    controlsUnknown.toggles 0 = ToggleswitchPosition.UNKNOWN ∧
    ((Overdrive.init 48000).updateFromControls controlsUnknown).voicing
      = (Overdrive.init 48000).voicing ∧
    ((Distortion.init 48000).updateFromControls controlsUnknown).clipMode
      = (Distortion.init 48000).clipMode ∧
    ((Fuzz.init 48000).updateFromControls controlsUnknown).character
      = (Fuzz.init 48000).character ∧
    ((Chorus.init 48000).updateFromControls controlsUnknown).waveform
      = (Chorus.init 48000).waveform ∧
    ((Tremolo.init 48000).updateFromControls controlsUnknown).mode
      = (Tremolo.init 48000).mode ∧
    ((Delay.init 48000).updateFromControls controlsUnknown).timeMultiplier
      = (Delay.init 48000).timeMultiplier ∧
    ((Reverb.init 48000).updateFromControls controlsUnknown).sizeMultiplier
      = (Reverb.init 48000).sizeMultiplier ∧
    ((Compressor.init 48000).updateFromControls controlsUnknown).kneeMode
      = (Compressor.init 48000).kneeMode ∧
    ((Overdrive.init 48000).updateFromControls controlsUnknown).smoothDrive.targetValue
      = controlsUnknown.knobs 0 :=
  ⟨rfl,
    (C10_unknown_toggle_frame.1 controlsUnknown (Overdrive.init 48000) rfl).1,
    (C10_unknown_toggle_frame.2.1 controlsUnknown (Distortion.init 48000) rfl).1,
    (C10_unknown_toggle_frame.2.2.1 controlsUnknown (Fuzz.init 48000) rfl).1,
    (C10_unknown_toggle_frame.2.2.2.1 controlsUnknown (Chorus.init 48000) rfl).1,
    (C10_unknown_toggle_frame.2.2.2.2.1 controlsUnknown (Tremolo.init 48000) rfl).1,
    (C10_unknown_toggle_frame.2.2.2.2.2.1 controlsUnknown (Delay.init 48000) rfl).1,
    (C10_unknown_toggle_frame.2.2.2.2.2.2.1 controlsUnknown (Reverb.init 48000) rfl).2.1,
    (C10_unknown_toggle_frame.2.2.2.2.2.2.2 controlsUnknown (Compressor.init 48000) rfl).1,
    (C10_unknown_toggle_frame.1 controlsUnknown (Overdrive.init 48000) rfl).2.1⟩

/-- A silent overdrive maps a zero sample to zero and stays silent. -/
theorem overdrive_silent_step (o : Overdrive) (h : o.Silent) :
    (o.process 0).1 = 0 ∧ (o.process 0).2.Silent := by
  obtain ⟨h1, h2⟩ := h
  refine ⟨?_, ?_, ?_⟩
  · norm_num [Overdrive.process, Overdrive.softClip, h1, h2]
  · norm_num [Overdrive.process, Overdrive.softClip, h1, h2]
  · norm_num [Overdrive.process, h2]

/-- A silent distortion maps a zero sample to zero and stays silent. -/
theorem distortion_silent_step (d : Distortion) (h : d.Silent) :
    (d.process 0).1 = 0 ∧ (d.process 0).2.Silent := by
  obtain ⟨h1, h2, h3⟩ := h
  refine ⟨?_, ?_, ?_, ?_⟩
  · norm_num [Distortion.process, Distortion.hardClip, Distortion.softClip, h1, h2, h3]
  · norm_num [Distortion.process, Distortion.hardClip, Distortion.softClip, h1, h2, h3]
  · norm_num [Distortion.process, h2]
  · norm_num [Distortion.process, h2, h3]

/-- A silent fuzz maps a zero sample to zero and stays silent. -/
theorem fuzz_silent_step (f : Fuzz) (h : f.Silent) :
    (f.process 0).1 = 0 ∧ (f.process 0).2.Silent := by
  obtain ⟨h1, h2⟩ := h
  refine ⟨?_, ?_, ?_⟩
  · norm_num [Fuzz.process, Fuzz.vintageClip, Fuzz.modernClip, Fuzz.octaveClip, h1, h2]
  · norm_num [Fuzz.process, Fuzz.vintageClip, Fuzz.modernClip, Fuzz.octaveClip, h1, h2]
  · norm_num [Fuzz.process, Fuzz.vintageClip, Fuzz.modernClip, Fuzz.octaveClip, h2]

/-- Any tremolo maps a zero sample to zero. -/
theorem tremolo_zero_step (ops : FloatOps) (tr : Tremolo) :
    (Tremolo.process ops tr 0).1 = 0 := by
  norm_num [Tremolo.process]

/-- A silent compressor maps a zero sample to zero and stays silent. -/
theorem compressor_silent_step (ops : FloatOps) (c : Compressor) (h : c.Silent) :
    (Compressor.process ops c 0).1 = 0 ∧ (Compressor.process ops c 0).2.Silent := by
  have h' : c.envelope = 0 := h
  constructor
  · norm_num [Compressor.process, Compressor.getEnvelope, Compressor.computeGain, h']
  · show (Compressor.process ops c 0).2.envelope = 0
    norm_num [Compressor.process, Compressor.getEnvelope, Compressor.computeGain, h']

/-- A silent chorus maps a zero sample to zero and stays silent. -/
theorem chorus_silent_step (ops : FloatOps) (c : Chorus) (h : c.Silent) :
    (Chorus.process ops c 0).1 = 0 ∧ (Chorus.process ops c 0).2.Silent := by
  have h' : ∀ i, c.delayBuffer i = 0 := h
  constructor
  · norm_num [Chorus.process, h']
  · intro i
    show Function.update c.delayBuffer c.writeIndex 0 i = 0
    exact update_zero_zero h' _ _

set_option maxHeartbeats 2000000 in
/-- A silent delay maps a zero sample to zero and stays silent. -/
theorem delay_silent_step (d : Delay) (h : d.Silent) :
    (d.process 0).1 = 0 ∧ (d.process 0).2.Silent := by
  obtain ⟨hb, hf⟩ := h
  refine ⟨?_, ?_, ?_⟩
  · norm_num [Delay.process, hb, hf]
  · intro i
    norm_num [Delay.process, Function.update, hb, hf]
  · norm_num [Delay.process, hb, hf]

/-- A silent comb filter maps a zero sample to zero and stays silent. -/
theorem comb_silent_step (cf : CombFilter) (h : cf.Silent) :
    (cf.process 0).1 = 0 ∧ (cf.process 0).2.Silent := by
  obtain ⟨hb, hd⟩ := h
  refine ⟨hb _, ?_, ?_⟩
  · intro i
    norm_num [CombFilter.process, Function.update, hb, hd]
  · norm_num [CombFilter.process, hb, hd]

/-- A silent allpass filter maps a zero sample to zero and stays
silent. -/
theorem allpass_silent_step (a : AllpassFilter) (h : a.Silent) :
    (a.process 0).1 = 0 ∧ (a.process 0).2.Silent := by
  constructor
  · norm_num [AllpassFilter.process, h a.index]
  · intro i
    norm_num [AllpassFilter.process, Function.update, h a.index, h i]

set_option maxHeartbeats 4000000 in
/-- A silent reverb maps a zero sample to zero and stays silent. -/
theorem reverb_silent_step (r : Reverb) (h : r.Silent) :
    (r.process 0).1 = 0 ∧ (r.process 0).2.Silent := by
  obtain ⟨⟨h0b, h0d⟩, ⟨h1b, h1d⟩, ⟨h2b, h2d⟩, ⟨h3b, h3d⟩, ha0, ha1, hp⟩ := h
  have ha0' : ∀ i, r.allpass0.buffer i = 0 := ha0
  have ha1' : ∀ i, r.allpass1.buffer i = 0 := ha1
  refine ⟨?_, ⟨fun i => ?_, ?_⟩, ⟨fun i => ?_, ?_⟩, ⟨fun i => ?_, ?_⟩, ⟨fun i => ?_, ?_⟩,
      fun i => ?_, fun i => ?_, fun i => ?_⟩ <;>
    norm_num [Reverb.process, CombFilter.process, AllpassFilter.process,
      CombFilter.setFeedback, CombFilter.setDamping,
      update_zero_zero hp, update_zero_zero h0b, update_zero_zero h1b,
      update_zero_zero h2b, update_zero_zero h3b,
      update_zero_zero ha0', update_zero_zero ha1',
      h0b, h1b, h2b, h3b, h0d, h1d, h2d, h3d, ha0', ha1']

/-- C6: for every effect variant, immediately after reset, processing any
sequence of all-zero input samples (in particular one at least as long as
the longest internal buffer) produces only zero output samples, for every
setting of the smoothed parameters and mode selectors and for every
interpretation of the math primitives. -/
theorem C6_reset_silence :
    (∀ (o : Overdrive) (n : ℕ),
      runEffect Overdrive.process o.reset (List.replicate n 0) = List.replicate n 0) ∧
    (∀ (d : Distortion) (n : ℕ),
      runEffect Distortion.process d.reset (List.replicate n 0) = List.replicate n 0) ∧
    (∀ (f : Fuzz) (n : ℕ),
      runEffect Fuzz.process f.reset (List.replicate n 0) = List.replicate n 0) ∧
    (∀ (ops : FloatOps) (c : Chorus) (n : ℕ),
      runEffect (Chorus.process ops) c.reset (List.replicate n 0) = List.replicate n 0) ∧
    (∀ (ops : FloatOps) (tr : Tremolo) (n : ℕ),
      runEffect (Tremolo.process ops) tr.reset (List.replicate n 0) = List.replicate n 0) ∧
    (∀ (d : Delay) (n : ℕ),
      runEffect Delay.process d.reset (List.replicate n 0) = List.replicate n 0) ∧
    (∀ (r : Reverb) (n : ℕ),
      runEffect Reverb.process r.reset (List.replicate n 0) = List.replicate n 0) ∧
    (∀ (ops : FloatOps) (cp : Compressor) (n : ℕ),
      runEffect (Compressor.process ops) cp.reset (List.replicate n 0)
        = List.replicate n 0) := by
  refine ⟨fun o n => ?_, fun d n => ?_, fun f n => ?_, fun ops c n => ?_,
    fun ops tr n => ?_, fun d n => ?_, fun r n => ?_, fun ops cp n => ?_⟩
  · exact runEffect_zero _ Overdrive.Silent overdrive_silent_step n _ ⟨rfl, rfl⟩
  · exact runEffect_zero _ Distortion.Silent distortion_silent_step n _ ⟨rfl, rfl, rfl⟩
  · exact runEffect_zero _ Fuzz.Silent fuzz_silent_step n _ ⟨rfl, rfl⟩
  · exact runEffect_zero _ Chorus.Silent (chorus_silent_step ops) n _ (fun _ => rfl)
  · exact runEffect_zero _ (fun _ => True)
      (fun s _ => ⟨tremolo_zero_step ops s, trivial⟩) n _ trivial
  · exact runEffect_zero _ Delay.Silent delay_silent_step n _ ⟨fun _ => rfl, rfl⟩
  · exact runEffect_zero _ Reverb.Silent reverb_silent_step n _
      ⟨⟨fun _ => rfl, rfl⟩, ⟨fun _ => rfl, rfl⟩, ⟨fun _ => rfl, rfl⟩, ⟨fun _ => rfl, rfl⟩,
        fun _ => rfl, fun _ => rfl, fun _ => rfl⟩
  · exact runEffect_zero _ Compressor.Silent (compressor_silent_step ops) n _ rfl

/-- The base-10 logarithm of 1/10000 is exactly -4. -/
theorem logb_ten_neg4 : Real.logb 10 ((1:ℝ)/10000) = -4 := by
  have h : (1/10000 : ℝ) = (10 : ℝ) ^ ((-4 : ℤ) : ℝ) := by
    rw [Real.rpow_intCast]
    norm_num
  rw [h, Real.logb_rpow (by norm_num) (by norm_num)]
  norm_num

/-- The base-10 logarithm of 2 exceeds 1/10. -/
theorem logb_two_gt : (1/10 : ℝ) < Real.logb 10 2 := by
  rw [Real.lt_logb_iff_rpow_lt (by norm_num) (by norm_num)]
  set a := (10 : ℝ) ^ (1/10 : ℝ) with ha
  have hapos : 0 < a := Real.rpow_pos_of_pos (by norm_num) _
  have h10 : a ^ (10:ℕ) = 10 := by
    rw [ha, ← Real.rpow_natCast ((10:ℝ) ^ (1/10 : ℝ)) 10, ← Real.rpow_mul (by norm_num)]
    norm_num
  by_contra hcon
  push_neg at hcon
  have : (2:ℝ) ^ (10:ℕ) ≤ a ^ (10:ℕ) := pow_le_pow_left₀ (by norm_num) hcon 10
  rw [h10] at this
  norm_num at this

/-- C7 (amended): in hard-knee mode the decibel-domain gain of
Compressor::computeGain is exactly 0 whenever envDb is at or below
threshDb, and equals threshDb + (envDb - threshDb)/ratio - envDb above
it, where threshDb adds the epsilon 1e-4 to the threshold before the
base-10 log while envDb takes the log of the envelope directly; for
envelopes of at least 1e-4 whose envDb is at or below threshDb the linear
gain is exactly 1. -/
theorem C7_compressor_hard_knee (w envDb threshDb ratio envLevel threshold : ℝ) :
    (envDb ≤ threshDb → Compressor.gainDbR 0 w envDb threshDb ratio = 0) ∧
    (threshDb < envDb →
      Compressor.gainDbR 0 w envDb threshDb ratio
        = threshDb + (envDb - threshDb) / ratio - envDb) ∧
    (0.0001 ≤ envLevel →
      20 * Real.logb 10 envLevel ≤ 20 * Real.logb 10 (threshold + 0.0001) →
      Compressor.computeGainR 0 w envLevel threshold ratio = 1) := by
  refine ⟨fun h => ?_, fun h => ?_, fun h1 h2 => ?_⟩
  · rw [Compressor.gainDbR, if_pos rfl, if_neg (not_lt.mpr h)]
  · rw [Compressor.gainDbR, if_pos rfl, if_pos h]
  · rw [Compressor.computeGainR, if_neg (not_lt.mpr h1)]
    dsimp only
    rw [Compressor.gainDbR, if_pos rfl, if_neg (not_lt.mpr h2)]
    norm_num

/-- Witness for C7 at concrete decibel values and a concrete envelope
and threshold. -/
theorem C7_compressor_hard_knee_witness :
    ((-1:ℝ) ≤ 0 ∧ Compressor.gainDbR 0 0 (-1) 0 2 = 0) ∧
    ((0:ℝ) < 1 ∧ Compressor.gainDbR 0 0 1 0 2 = 0 + (1 - 0) / 2 - 1) ∧
    ((0.0001:ℝ) ≤ 1/10000 ∧
      20 * Real.logb 10 ((1:ℝ)/10000) ≤ 20 * Real.logb 10 ((9999:ℝ)/10000 + 0.0001) ∧
      Compressor.computeGainR 0 0 (1/10000) (9999/10000) 2 = 1) := by
  have hle : 20 * Real.logb 10 ((1:ℝ)/10000)
      ≤ 20 * Real.logb 10 ((9999:ℝ)/10000 + 0.0001) := by
    have h1 : ((9999:ℝ)/10000 + 0.0001) = 1 := by norm_num
    rw [h1, Real.logb_one, logb_ten_neg4]
    norm_num
  exact ⟨⟨by norm_num, (C7_compressor_hard_knee 0 (-1) 0 2 0 0).1 (by norm_num)⟩,
    ⟨by norm_num, (C7_compressor_hard_knee 0 1 0 2 0 0).2.1 (by norm_num)⟩,
    ⟨by norm_num, hle,
      (C7_compressor_hard_knee 0 0 0 2 (1/10000) (9999/10000)).2.2 (by norm_num) hle⟩⟩

/-- C7 counterexample: under the claim's conversion, in which the epsilon
is added to the envelope before the log as well, the hard-knee formula
predicts gain reduction at envelope 1e-4 and threshold 10^(-3.9) - 1e-4
with ratio 2, while computeGain as implemented (no epsilon on the
envelope) yields exactly unity gain there. -/
theorem C7_compressor_hard_knee_counterexample :
    Compressor.computeGainR 0 0 (1/10000) ((10:ℝ) ^ ((-39:ℝ)/10) - 1/10000) 2 = 1 ∧
    Compressor.computeGainSpecR 0 0 (1/10000) ((10:ℝ) ^ ((-39:ℝ)/10) - 1/10000) 2 < 1 := by
  have hth : ((10:ℝ) ^ ((-39:ℝ)/10) - 1/10000) + 0.0001 = (10:ℝ) ^ ((-39:ℝ)/10) := by
    norm_num
  have hlogth : Real.logb 10 ((10:ℝ) ^ ((-39:ℝ)/10)) = (-39)/10 :=
    Real.logb_rpow (by norm_num) (by norm_num)
  have henvspec : Real.logb 10 ((1:ℝ)/10000 + 0.0001) = Real.logb 10 2 - 4 := by
    have h2 : ((1:ℝ)/10000 + 0.0001) = 2 * (1/10000) := by norm_num
    rw [h2, Real.logb_mul (by norm_num) (by norm_num), logb_ten_neg4]
    ring
  constructor
  · rw [Compressor.computeGainR, if_neg (by norm_num)]
    dsimp only
    rw [hth, hlogth, logb_ten_neg4]
    rw [Compressor.gainDbR, if_pos rfl, if_neg (by norm_num)]
    norm_num
  · rw [Compressor.computeGainSpecR, if_neg (by norm_num)]
    dsimp only
    rw [hth, hlogth, henvspec]
    have hgt : (20 : ℝ) * (Real.logb 10 2 - 4) > 20 * ((-39)/10) := by
      have := logb_two_gt
      nlinarith
    rw [Compressor.gainDbR, if_pos rfl, if_pos hgt]
    have hneg : (20 * ((-39:ℝ)/10) + (20 * (Real.logb 10 2 - 4) - 20 * ((-39)/10)) / 2
        - 20 * (Real.logb 10 2 - 4)) / 20 < 0 := by
      nlinarith [logb_two_gt]
    calc (10:ℝ) ^ ((20 * ((-39:ℝ)/10) + (20 * (Real.logb 10 2 - 4) - 20 * ((-39)/10)) / 2
        - 20 * (Real.logb 10 2 - 4)) / 20)
        < 1 := Real.rpow_lt_one_of_one_lt_of_neg (by norm_num) hneg

end Hothouse
